import Mathlib

/-!
MS 0515, PC-9801/PC-9821 and zexall register decoding.

A shallow embedding of the bank-switching and register handlers of
`src/mame/drivers/ms0515.cpp` and `src/mame/drivers/pc9801.cpp`, of the I/O
tables of the latter, and of the output handshake of
`src/mame/drivers/zexall.cpp`.
Machine integers are natural numbers, truncated explicitly where the
source stores into a fixed-width field.
-/

namespace MS0515

/-- Modelled from the spec: the helper `BIT(x, n)` is defined outside these
files; it is the `bit(bankRegister, pageIndex)` of the resolver, bit `n` of
`x` as 0 or 1. -/
def BIT (x n : Nat) : Nat := (x >>> n) &&& 1

/-- Modelled from the spec: the line state `CLEAR_LINE` ("cleared") is
defined outside these files; only its being distinct from `ASSERT_LINE`
matters here. -/
def CLEAR_LINE : Nat := 0

/-- Modelled from the spec: the line state `ASSERT_LINE` ("asserted") is
defined outside these files. -/
def ASSERT_LINE : Nat := 1

/-- The fields of `ms0515_state` that the handlers below touch.  `bank n` is
the offset into RAM that `membank("bankn")` points at; `line n` is the state
last driven on CPU input line `n`. -/
structure State where
  m_bankreg : Nat
  m_haltreg : Nat
  m_irqs : Nat
  m_blink : Int
  m_video_ram : Nat
  m_floppy : Option Nat
  bank : Nat → Nat
  line : Nat → Nat

/-- The call `membank("bankn")->set_base(ram + off)`. -/
def set_base (s : State) (n off : Nat) : State :=
  { s with bank := fun k => if k = n then off else s.bank k }

/-- The call `m_maincpu->set_input_line(n, v)`. -/
def set_input_line (s : State) (n v : Nat) : State :=
  { s with line := fun k => if k = n then v else s.line k }

/-- The loop `for (i = 15; i > 0; i--) if (m_irqs & (1 << i)) break;` started
at `i`; the result is the value of `i` after the loop. -/
def irq_scan (irqs : Nat) : Nat → Nat
  | 0 => 0
  | i + 1 => if irqs &&& (1 <<< (i + 1)) ≠ 0 then i + 1 else irq_scan irqs i

/-- The method `ms0515_state::irq_encoder`. -/
def irq_encoder (s : State) (irq state : Nat) : State :=
  let irqs :=
    if state = ASSERT_LINE then (s.m_irqs ||| (1 <<< irq)) % 65536
    else s.m_irqs &&& (65535 ^^^ ((1 <<< irq) % 65536))
  let s := { s with m_irqs := irqs }
  let i := irq_scan irqs 15
  let s := set_input_line s 3 (if i &&& 8 ≠ 0 then ASSERT_LINE else CLEAR_LINE)
  let s := set_input_line s 2 (if i &&& 4 ≠ 0 then ASSERT_LINE else CLEAR_LINE)
  let s := set_input_line s 1 (if i &&& 2 ≠ 0 then ASSERT_LINE else CLEAR_LINE)
  set_input_line s 0 (if i &&& 1 ≠ 0 then ASSERT_LINE else CLEAR_LINE)

/-- The method `ms0515_state::irq2_w`. -/
def irq2_w (s : State) (state : Nat) : State := irq_encoder s 2 state

/-- The write handler `ms0515_state::ms0515_bank_w`; octal constants of the
source are written in decimal (`0160000 = 57344`, `0340000 = 114688`,
`0020000 = 8192`). -/
def ms0515_bank_w (s : State) (data mem_mask : Nat) : State :=
  let _ := mem_mask
  let s :=
    if BIT (data ^^^ s.m_bankreg) 8 ≠ 0 then
      irq2_w s (if BIT data 8 ≠ 0 then ASSERT_LINE else CLEAR_LINE)
    else s
  let s := { s with m_bankreg := data }
  let s := set_base s 0 (0 + BIT data 0 * 57344)
  let s := set_base s 1 (8192 + BIT data 1 * 57344)
  let s := set_base s 2 (16384 + BIT data 2 * 57344)
  let s := set_base s 3 (24576 + BIT data 3 * 57344)
  let s := set_base s 4 (32768 + BIT data 4 * 57344)
  let s := set_base s 5 (40960 + BIT data 5 * 57344)
  let s := set_base s 6 (49152 + BIT data 6 * 57344)
  if BIT data 7 ≠ 0 then
    match (data >>> 10) &&& 3 with
    | 0 => set_base (set_base s 0 (0 + 114688)) 1 (8192 + 114688)
    | 1 => set_base (set_base s 2 (0 + 114688)) 3 (8192 + 114688)
    | 2 => set_base (set_base s 4 (0 + 114688)) 5 (8192 + 114688)
    | 3 => set_base (set_base s 4 (0 + 114688)) 5 (8192 + 114688)
    | _ => s
  else s

/-- Modelled from the spec: the macro `COMBINE_DATA(&reg)` is defined outside
these files; it is the write-mask store "unmasked lanes of the target register
are preserved", `reg = (reg & ~mem_mask) | (data & mem_mask)`, the expression
`mk3b_soc_state::io7_w` writes out in full, here on a 16-bit register. -/
def COMBINE_DATA (reg data mem_mask : Nat) : Nat :=
  ((reg &&& (65535 ^^^ (mem_mask % 65536))) ||| (data &&& mem_mask)) % 65536

/-- The read handler `ms0515_state::ms0515_halt_r`. -/
def ms0515_halt_r (s : State) : Nat := s.m_haltreg

/-- The write handler `ms0515_state::ms0515_halt_w`. -/
def ms0515_halt_w (s : State) (data mem_mask : Nat) : State :=
  { s with m_haltreg := COMBINE_DATA s.m_haltreg data mem_mask }

/-- The method `ms0515_state::machine_reset`: a full-width write of 0 to the
bank register, then the remaining fields are cleared. -/
def machine_reset (s : State) : State :=
  let s := ms0515_bank_w s 0 65535
  { s with m_video_ram := 0 + 114688, m_blink := 0, m_haltreg := 0, m_irqs := 0,
           m_floppy := none }

/-- A power-on state with every field zero, used to run the handlers on
concrete inputs. -/
def init_state : State :=
  { m_bankreg := 0, m_haltreg := 0, m_irqs := 0, m_blink := 0, m_video_ram := 0,
    m_floppy := none, bank := fun _ => 0, line := fun _ => 0 }

/-- The per-bit mapping of window `n`: base `n * 8192`, moved up by the
stride `0160000` when selector bit `n` is set. -/
def per_bit_base (data n : Nat) : Nat := n * 8192 + BIT data n * 57344

/-- The window mapping as a function of the written value alone: the
video-RAM alias on the pair chosen by bits 11..10 when bit 7 is set, the
per-bit mapping everywhere else. -/
def resolve (data n : Nat) : Nat :=
  if data.testBit 7 then
    if data.testBit 11 then
      if n = 4 then 114688 else if n = 5 then 122880 else per_bit_base data n
    else if data.testBit 10 then
      if n = 2 then 114688 else if n = 3 then 122880 else per_bit_base data n
    else
      if n = 0 then 114688 else if n = 1 then 122880 else per_bit_base data n
  else per_bit_base data n

/-- The number `h` is the highest-numbered pending IRQ among 1..`n` in the
mask `m`, or 0 when none of them is pending. -/
def highest_pending (n m h : Nat) : Prop :=
  (h = 0 ∧ ∀ i, 1 ≤ i → i ≤ n → m.testBit i = false)
    ∨ (1 ≤ h ∧ h ≤ n ∧ m.testBit h = true ∧ ∀ i, h < i → i ≤ n → m.testBit i = false)

/-- The four CPU input lines 3..0 after an assertion of `irq` on the all-zero
state, as a list. -/
def lines_after_assert (irq : Nat) : List Nat :=
  let s := irq_encoder init_state irq ASSERT_LINE
  [s.line 3, s.line 2, s.line 1, s.line 0]

end MS0515

namespace PC9801

/-- The 16-colour analog palette registers `m_analog16`. -/
structure Analog16 where
  pal_entry : Nat
  r : Nat → Nat
  g : Nat → Nat
  b : Nat → Nat

/-- The 256-colour analog palette registers `m_analog256`. -/
structure Analog256 where
  pal_entry : Nat
  r : Nat → Nat
  g : Nat → Nat
  b : Nat → Nat
  write_bank : Nat

/-- The EGC register block `m_egc`, as far as `egc_w` and the reset touch it. -/
structure Egc where
  regs : Nat → Nat
  pat : Nat → Nat
  count : Nat
  first : Bool
  init : Bool

/-- The fields of `pc9801_state` that the handlers below touch.  `pens` is the
colour table of the `m_palette` device, as (red, green, blue); `a20_line` is
the state last driven on the CPU input `INPUT_LINE_A20`, `reset_pulses` counts
the pulses sent to `INPUT_LINE_RESET`, `beeper_state` is the state of the
`m_beeper` device, `ipl_bank` is the bank selected on the `m_ipl` device, and
`ide_rom` is the offset into the `ide` region of the ROM installed at
`0xd8000`, if any. -/
structure State where
  m_ex_video_ff : Nat → Nat
  m_analog16 : Analog16
  m_analog256 : Analog256
  m_access_ctrl : Nat
  m_vram_bank : Nat
  pens : Nat → Nat × Nat × Nat
  m_sdip : Nat → Nat
  m_sdip_bank : Nat
  m_pc9821_window_bank : Nat
  m_gate_a20 : Nat
  m_nmi_ff : Nat
  a20_line : Nat
  reset_pulses : Nat
  m_egc : Egc
  m_tvram : Nat → Nat
  m_video_ff : Nat → Nat
  beeper_state : Nat
  m_mouse_control : Nat
  m_mouse_freq_reg : Nat
  m_mouse_freq_index : Nat
  m_dma_autoinc : Nat → Nat
  m_dma_offset : Nat → Nat
  m_dack : Nat
  ipl_bank : Nat
  m_fdc_ctrl : Nat
  m_ide_sel : Nat
  m_ide1_irq : Bool
  m_ide2_irq : Bool
  ide_rom : Option Nat

/-- What the handlers use from outside the driver file: the indices of the
two palette-mode flags in `m_ex_video_ff`, the colour expander `pal4bit`, and
the base handlers `pc9801_a0_r` / `pc9801_a0_w` of the shared port range. -/
structure Ext where
  ANALOG_16_MODE : Nat
  ANALOG_256_MODE : Nat
  pal4bit : Nat → Nat
  pc9801_a0_r : State → Nat → Nat
  pc9801_a0_w : State → Nat → Nat → State

/-- Array store `a[i] = v`. -/
def store (a : Nat → Nat) (i v : Nat) : Nat → Nat := fun k => if k = i then v else a k

/-- The call `m_palette->set_pen_color(pen, r, g, b)`. -/
def set_pen_color (s : State) (pen r g b : Nat) : State :=
  { s with pens := fun k => if k = pen then (r, g, b) else s.pens k }

/-- The write handler `pc9801_state::pc9801rs_a0_w`. -/
def pc9801rs_a0_w (E : Ext) (s : State) (offset data : Nat) : State :=
  if offset &&& 1 = 0 ∧ offset &&& 8 ≠ 0 ∧ s.m_ex_video_ff E.ANALOG_16_MODE ≠ 0 then
    let p := s.m_analog16
    let p :=
      match offset with
      | 0x08 => { p with pal_entry := data &&& 0xf }
      | 0x0a => { p with g := store p.g p.pal_entry (data &&& 0xf) }
      | 0x0c => { p with r := store p.r p.pal_entry (data &&& 0xf) }
      | 0x0e => { p with b := store p.b p.pal_entry (data &&& 0xf) }
      | _ => p
    let s := { s with m_analog16 := p }
    set_pen_color s (p.pal_entry + 0x10) (E.pal4bit (p.r p.pal_entry))
      (E.pal4bit (p.g p.pal_entry)) (E.pal4bit (p.b p.pal_entry))
  else E.pc9801_a0_w s offset data

/-- The read handler `pc9801_state::access_ctrl_r`. -/
def access_ctrl_r (s : State) (offset : Nat) : Nat :=
  if offset = 1 then s.m_access_ctrl else 0xff

/-- The write handler `pc9801_state::access_ctrl_w`; the register is a byte. -/
def access_ctrl_w (s : State) (offset data : Nat) : State :=
  if offset = 1 then { s with m_access_ctrl := data % 256 } else s

/-- The read handler `pc9801_state::pc9821_a0_r`. -/
def pc9821_a0_r (E : Ext) (s : State) (offset : Nat) : Nat :=
  if offset &&& 1 = 0 ∧ offset &&& 8 ≠ 0 then
    if s.m_ex_video_ff E.ANALOG_256_MODE ≠ 0 then 0
    else if s.m_ex_video_ff E.ANALOG_16_MODE ≠ 0 then
      match offset with
      | 0x08 => s.m_analog16.pal_entry &&& 0xf
      | 0x0a => s.m_analog16.g s.m_analog16.pal_entry &&& 0xf
      | 0x0c => s.m_analog16.r s.m_analog16.pal_entry &&& 0xf
      | 0x0e => s.m_analog16.b s.m_analog16.pal_entry &&& 0xf
      | _ => 0
    else E.pc9801_a0_r s offset
  else E.pc9801_a0_r s offset

/-- The write handler `pc9801_state::pc9821_a0_w`. -/
def pc9821_a0_w (E : Ext) (s : State) (offset data : Nat) : State :=
  if offset &&& 1 = 0 ∧ offset &&& 8 ≠ 0 ∧ s.m_ex_video_ff E.ANALOG_256_MODE ≠ 0 then
    let p := s.m_analog256
    let p :=
      match offset with
      | 0x08 => { p with pal_entry := data &&& 0xff }
      | 0x0a => { p with g := store p.g p.pal_entry (data &&& 0xff) }
      | 0x0c => { p with r := store p.r p.pal_entry (data &&& 0xff) }
      | 0x0e => { p with b := store p.b p.pal_entry (data &&& 0xff) }
      | _ => p
    let s := { s with m_analog256 := p }
    set_pen_color s (p.pal_entry + 0x20) (p.r p.pal_entry) (p.g p.pal_entry)
      (p.b p.pal_entry)
  else pc9801rs_a0_w E s offset data

/-- The read handler `pc9801_state::fdc_2hd_ctrl_r`. -/
def fdc_2hd_ctrl_r (_s : State) (_offset : Nat) : Nat := 0x44

/-- The read handler `pc9801_state::f0_r`; `amd98` tells whether the device
scan finds an AMD98 board. -/
def f0_r (amd98 : Bool) (_s : State) (offset : Nat) : Nat :=
  if offset = 0 then (if amd98 then 0x18 else 0) else 0xff

/-- The read handler `pc9801_state::a20_ctrl_r`. -/
def a20_ctrl_r (amd98 : Bool) (s : State) (offset : Nat) : Nat :=
  if offset = 0x01 then ((s.m_gate_a20 ^^^ 1) ||| 0xfe) % 256
  else if offset = 0x03 then ((s.m_gate_a20 ^^^ 1) ||| (s.m_nmi_ff <<< 1)) % 256
  else f0_r amd98 s offset

/-- The system-port device `ppi8255_sys`, which lives outside the driver
file: its `read` and `write` entry points. -/
structure Ppi where
  read : State → Nat → Nat
  write : State → Nat → Nat → State

/-- The write handler `pc9801_state::a20_ctrl_w`. -/
def a20_ctrl_w (P : Ppi) (s : State) (offset data : Nat) : State :=
  let s :=
    if offset = 0x00 then
      let por := (P.read s 2 % 256) &&& 0xdf
      let s := P.write s 2 por
      let s := { s with a20_line := 0 }
      let s := { s with reset_pulses := s.reset_pulses + 1 }
      { s with m_gate_a20 := 0 }
    else s
  let s := if offset = 0x01 then { s with m_gate_a20 := 1 } else s
  let s :=
    if offset = 0x03 then
      if data = 0x02 then { s with m_gate_a20 := 1 }
      else if data = 0x03 then { s with m_gate_a20 := 0 }
      else s
    else s
  { s with a20_line := s.m_gate_a20 }

/-- The read handler `pc9801_state::grcg_r`; `txt_scrl_r` is the text-scroll
read handler of the video part, outside the driver file. -/
def grcg_r (txt_scrl_r : State → Nat → Nat) (s : State) (offset : Nat) : Nat :=
  if offset = 6 then 0xff
  else if offset = 7 then 0xff
  else txt_scrl_r s offset

/-- The read handler `pc9801_state::midi_r`. -/
def midi_r (_s : State) (_offset : Nat) : Nat := 0xff

/-- The read handler `pc9801_state::unk_r`. -/
def unk_r (_s : State) (_offset : Nat) : Nat := 0xff

/-- The read handler `pc9801_state::window_bank_r`. -/
def window_bank_r (s : State) (offset : Nat) : Nat :=
  if offset = 1 then s.m_pc9821_window_bank &&& 0xfe else 0xff

/-- The write handler `pc9801_state::window_bank_w`. -/
def window_bank_w (s : State) (offset data : Nat) : State :=
  if offset = 1 then { s with m_pc9821_window_bank := data &&& 0xfe } else s

/-- The method `pc9801_state::m_sdip_read`. -/
def m_sdip_read (s : State) (port sdip_offset : Nat) : Nat :=
  if port = 2 then s.m_sdip sdip_offset else 0xff

/-- The method `pc9801_state::m_sdip_write`; the array holds bytes. -/
def m_sdip_write (s : State) (port sdip_offset data : Nat) : State :=
  if port = 2 then { s with m_sdip := store s.m_sdip sdip_offset (data % 256) } else s

/-- The read handlers `sdip_0_r` .. `sdip_b_r`, which differ in the slot
number `k` only: `m_sdip_read(offset, k + m_sdip_bank * 12)`. -/
def sdip_r (k : Nat) (s : State) (offset : Nat) : Nat :=
  m_sdip_read s offset (k + s.m_sdip_bank * 12)

/-- The write handlers `sdip_0_w` .. `sdip_a_w`, which differ in the slot
number `k` only: `m_sdip_write(offset, k + m_sdip_bank * 12, data)`. -/
def sdip_n_w (k : Nat) (s : State) (offset data : Nat) : State :=
  m_sdip_write s offset (k + s.m_sdip_bank * 12) data

/-- The write handler `pc9801_state::sdip_b_w`. -/
def sdip_b_w (s : State) (offset data : Nat) : State :=
  let s := if offset = 3 then { s with m_sdip_bank := (data &&& 0x40) >>> 6 } else s
  if offset = 2 then m_sdip_write s offset (11 + s.m_sdip_bank * 12) data else s

/-- The write handler bound to slot `k`: `sdip_b_w` for slot 11, one of
`sdip_0_w` .. `sdip_a_w` below it. -/
def sdip_w (k : Nat) (s : State) (offset data : Nat) : State :=
  if k = 11 then sdip_b_w s offset data else sdip_n_w k s offset data

/-- One write through the SDIP port block: slot, port offset, data. -/
structure SdipWrite where
  slot : Nat
  offset : Nat
  data : Nat

/-- A sequence of SDIP writes, in order. -/
def sdip_run (s : State) : List SdipWrite → State
  | [] => s
  | w :: ws => sdip_run (sdip_w w.slot s w.offset w.data) ws

/-- Whether none of the writes of the sequence stores into slot `k` of bank
`b`, that is, none is a write at port offset 2 to slot `k` made while bank `b`
is selected. -/
def sdip_avoids (k b : Nat) (s : State) : List SdipWrite → Bool
  | [] => true
  | w :: ws =>
    !(decide (w.slot = k) && decide (w.offset = 2) && decide (s.m_sdip_bank = b))
      && sdip_avoids k b (sdip_w w.slot s w.offset w.data) ws

/-- The write handler `pc9801_state::egc_w`; the registers are 16 bits wide and
`color` is a byte. -/
def egc_w (s : State) (offset data mem_mask : Nat) : State :=
  if s.m_ex_video_ff 2 = 0 then s
  else
    let e := s.m_egc
    let e :=
      if e.regs 1 &&& 0x6000 = 0 ∨ offset ≠ 4 then
        { e with regs := store e.regs offset (MS0515.COMBINE_DATA (e.regs offset) data mem_mask) }
      else e
    let paint (color : Nat) : Egc :=
      let p := store e.pat 0 (if color &&& 1 ≠ 0 then 0xffff else 0)
      let p := store p 1 (if color &&& 2 ≠ 0 then 0xffff else 0)
      let p := store p 2 (if color &&& 4 ≠ 0 then 0xffff else 0)
      let p := store p 3 (if color &&& 8 ≠ 0 then 0xffff else 0)
      { e with pat := p }
    let colour_case : Egc :=
      match (e.regs 1 >>> 13) &&& 3 with
      | 1 => paint (e.regs 5 % 256)
      | 2 => paint (e.regs 3 % 256)
      | _ => e
    let e :=
      match offset with
      | 1 => colour_case
      | 3 => colour_case
      | 5 => colour_case
      | 6 => { e with count := (e.regs 7 &&& 0xfff) + 1, first := true, init := false }
      | 7 => { e with count := (e.regs 7 &&& 0xfff) + 1, first := true, init := false }
      | _ => e
    { s with m_egc := e }

/-- The table `default_memsw_data` of the common reset. -/
def default_memsw_data : List Nat :=
  [0xe1, 0x48, 0xe1, 0x05, 0xe1, 0x04, 0xe1, 0x00, 0xe1, 0x01, 0xe1, 0x00, 0xe1, 0x00, 0xe1, 0x6e]

/-- The loop `for(i=0;i<0x10;i++) m_tvram[(0x3fe0>>1)+i] = default_memsw_data[i];`
run over the indices in `is`. -/
def memsw_loop (tvram : Nat → Nat) : List Nat → Nat → Nat
  | [] => tvram
  | i :: is => memsw_loop (store tvram ((0x3fe0 >>> 1) + i) (default_memsw_data.getD i 0)) is

/-- The reset `MACHINE_RESET_MEMBER(pc9801_state,pc9801_common)`.  The text
VRAM buffer holds `0x2000` words, which `memset` clears. -/
def machine_reset_pc9801_common (s : State) : State :=
  let tvram : Nat → Nat := fun k => if k < 0x2000 then 0 else s.m_tvram k
  let tvram := memsw_loop tvram (List.range 0x10)
  { s with
    m_tvram := tvram,
    beeper_state := 0,
    m_nmi_ff := 0,
    m_mouse_control := 0xff,
    m_mouse_freq_reg := 0,
    m_mouse_freq_index := 0,
    m_dma_autoinc := fun k => if k < 4 then 0 else s.m_dma_autoinc k,
    m_egc := { regs := fun _ => 0, pat := fun _ => 0, count := 0, first := false,
               init := false } }

/-- The write handler `pc9801_state::pc9801rs_video_ff_w`; `base` is the
handler `pc9801_video_ff_w` of the video part, outside the driver file. -/
def pc9801rs_video_ff_w (base : State → Nat → Nat → State) (s : State) (offset data : Nat) :
    State :=
  if offset = 1 then
    if data &&& 0xf0 = 0 then
      { s with m_ex_video_ff := store s.m_ex_video_ff ((data &&& 0xfe) >>> 1) (data &&& 1) }
    else s
  else base s offset data

/-- The write handler `pc9801_state::pc9821_video_ff_w`. -/
def pc9821_video_ff_w (base : State → Nat → Nat → State) (s : State) (offset data : Nat) :
    State :=
  if offset = 1 then
    if data &&& 0xfe = 4 ∧ s.m_ex_video_ff 3 = 0 then s
    else
      let s :=
        { s with m_ex_video_ff := store s.m_ex_video_ff ((data &&& 0xfe) >>> 1) (data &&& 1) }
      pc9801rs_video_ff_w base s offset data
  else pc9801rs_video_ff_w base s offset data

/-- A stand-in for the base handler `pc9801_video_ff_w`, used to run the
flip-flop handlers on concrete inputs: it latches bit 0 of the data into the
mode flip-flop chosen by bits 3..1. -/
def sample_video_ff_w (s : State) (_offset data : Nat) : State :=
  { s with m_video_ff := store s.m_video_ff ((data &&& 0x0e) >>> 1) (data &&& 1) }

/-- A stand-in for the system-port device, used to run `a20_ctrl_w` on
concrete inputs: port reads give `0xff`, a write to port 2 switches the beeper
as `ppi_sys_portc_w` does. -/
def sample_ppi : Ppi :=
  { read := fun _ _ => 0xff,
    write := fun s port data =>
      if port = 2 then { s with beeper_state := if data &&& 0x08 = 0 then 1 else 0 } else s }

/-- The write handler `pc9801_state::pc9801rs_bank_w`. -/
def pc9801rs_bank_w (s : State) (offset data : Nat) : State :=
  let after_offset_1 : State :=
    if offset = 3 then
      if data &&& 0xf0 = 0x20 then { s with m_vram_bank := (data &&& 2) >>> 1 } else s
    else s
  if offset = 1 then
    if data &&& 0xf0 = 0x00 ∨ data &&& 0xf0 = 0x10 then
      if data &&& 0xed = 0x00 then { s with ipl_bank := (data &&& 2) >>> 1 }
      else after_offset_1
    else after_offset_1
  else after_offset_1

/-- The reset `MACHINE_RESET_MEMBER(pc9801_state,pc9801rs)`; `ide_region` tells
whether the `ide` ROM region exists and `rom_load` is the value read from the
`ROM_LOAD` input port. -/
def machine_reset_pc9801rs (ide_region : Bool) (rom_load : Nat) (s : State) : State :=
  let s := machine_reset_pc9801_common s
  let s := { s with m_gate_a20 := 0 }
  let s := { s with m_fdc_ctrl := 3 }
  let s := { s with m_access_ctrl := 0 }
  let s := { s with m_ide_sel := 0 }
  let s := { s with m_ide1_irq := false, m_ide2_irq := false }
  let s := { s with a20_line := s.m_gate_a20 }
  if ide_region then
    if rom_load &&& 4 = 0 then { s with ide_rom := some 0 }
    else { s with ide_rom := some 0x2000 }
  else s

/-- The reset `MACHINE_RESET_MEMBER(pc9801_state,pc9821)`. -/
def machine_reset_pc9821 (ide_region : Bool) (rom_load : Nat) (s : State) : State :=
  let s := machine_reset_pc9801rs ide_region rom_load s
  { s with m_pc9821_window_bank := 0x08 }

/-- The write handler `pc9801_state::dmapg4_w`. -/
def dmapg4_w (s : State) (offset data : Nat) : State :=
  if offset < 4 then
    { s with m_dma_offset := store s.m_dma_offset ((offset + 1) &&& 3) (data &&& 0x0f) }
  else s

/-- The write handler `pc9801_state::dmapg8_w`; the registers are bytes. -/
def dmapg8_w (s : State) (offset data : Nat) : State :=
  if offset = 4 then
    { s with m_dma_autoinc := store s.m_dma_autoinc (data &&& 3) ((data >>> 2) &&& 3) }
  else if offset < 4 then
    { s with m_dma_offset := store s.m_dma_offset ((offset + 1) &&& 3) (data % 256) }
  else s

/-- The method `pc9801_state::set_dma_channel`. -/
def set_dma_channel (s : State) (channel state : Nat) : State :=
  if state = 0 then { s with m_dack := channel } else s

/-- The CPU program address space, which lives outside the driver file: its
`read_byte` and `write_byte` entry points. -/
structure Program where
  read_byte : State → Nat → Nat
  write_byte : State → Nat → Nat → State

/-- The read handler `pc9801_state::dma_read_byte`: the byte returned and the
state after the page update.  The page registers are bytes. -/
def dma_read_byte (P : Program) (s : State) (offset : Nat) : Nat × State :=
  let addr := (s.m_dma_offset s.m_dack <<< 16) ||| offset
  let s :=
    if offset = 0xffff then
      match s.m_dma_autoinc s.m_dack with
      | 1 =>
        let page := s.m_dma_offset s.m_dack % 256
        { s with m_dma_offset :=
            store s.m_dma_offset s.m_dack (((page + 1) &&& 0xf) ||| (page &&& 0xf0)) }
      | 3 =>
        { s with m_dma_offset :=
            store s.m_dma_offset s.m_dack ((s.m_dma_offset s.m_dack + 1) % 256) }
      | _ => s
    else s
  (P.read_byte s addr, s)

/-- The write handler `pc9801_state::dma_write_byte`. -/
def dma_write_byte (P : Program) (s : State) (offset data : Nat) : State :=
  let addr := (s.m_dma_offset s.m_dack <<< 16) ||| offset
  let s :=
    if offset = 0xffff then
      match s.m_dma_autoinc s.m_dack with
      | 1 =>
        let page := s.m_dma_offset s.m_dack % 256
        { s with m_dma_offset :=
            store s.m_dma_offset s.m_dack (((page + 1) &&& 0xf) ||| (page &&& 0xf0)) }
      | 3 =>
        { s with m_dma_offset :=
            store s.m_dma_offset s.m_dack ((s.m_dma_offset s.m_dack + 1) % 256) }
      | _ => s
    else s
  P.write_byte s addr data

/-- Modelled from the spec: the template `bitswap<N>` is defined outside these
files.  Its argument list names, from the top bit of the result down to bit
0, the bit of `val` that each result bit takes. -/
def bitswap (val : Nat) (bs : List Nat) : Nat :=
  bs.foldl (fun acc b => acc * 2 + MS0515.BIT val b) 0

/-- The permutation `bitswap<16>(x,8,9,10,11,12,13,14,15,0,1,2,3,4,5,6,7)` of
the four graphic VRAM handlers. -/
def gvram_swap (x : Nat) : Nat :=
  bitswap x [8, 9, 10, 11, 12, 13, 14, 15, 0, 1, 2, 3, 4, 5, 6, 7]

/-- The bit reversal of one byte, `bitswap<8>(b,0,1,2,3,4,5,6,7)`. -/
def rev8 (b : Nat) : Nat := bitswap b [0, 1, 2, 3, 4, 5, 6, 7]

/-- The GRCG access functions `upd7220_grcg_r` / `upd7220_grcg_w` of the video
part, outside the driver file. -/
structure Grcg where
  upd7220_grcg_r : State → Nat → Nat → Nat
  upd7220_grcg_w : State → Nat → Nat → Nat → State

/-- The read handler `pc9801_state::grcg_gvram_r`. -/
def grcg_gvram_r (G : Grcg) (s : State) (offset mem_mask : Nat) : Nat :=
  let ret := G.upd7220_grcg_r s ((offset + 0x4000) ||| (s.m_vram_bank <<< 16)) mem_mask % 65536
  gvram_swap ret

/-- The write handler `pc9801_state::grcg_gvram_w`. -/
def grcg_gvram_w (G : Grcg) (s : State) (offset data mem_mask : Nat) : State :=
  let data := gvram_swap data
  G.upd7220_grcg_w s ((offset + 0x4000) ||| (s.m_vram_bank <<< 16)) data mem_mask

/-- The read handler `pc9801_state::grcg_gvram0_r`. -/
def grcg_gvram0_r (G : Grcg) (s : State) (offset mem_mask : Nat) : Nat :=
  let ret := G.upd7220_grcg_r s (offset ||| (s.m_vram_bank <<< 16)) mem_mask % 65536
  gvram_swap ret

/-- The write handler `pc9801_state::grcg_gvram0_w`. -/
def grcg_gvram0_w (G : Grcg) (s : State) (offset data mem_mask : Nat) : State :=
  let data := gvram_swap data
  G.upd7220_grcg_w s (offset ||| (s.m_vram_bank <<< 16)) data mem_mask

/-- A state with every register zero, used to run the handlers on concrete
inputs. -/
def init_state : State :=
  { m_ex_video_ff := fun _ => 0,
    m_analog16 := { pal_entry := 0, r := fun _ => 0, g := fun _ => 0, b := fun _ => 0 },
    m_analog256 :=
      { pal_entry := 0, r := fun _ => 0, g := fun _ => 0, b := fun _ => 0, write_bank := 0 },
    m_access_ctrl := 0, m_vram_bank := 0, pens := fun _ => (0, 0, 0),
    m_sdip := fun _ => 0, m_sdip_bank := 0, m_pc9821_window_bank := 0, m_gate_a20 := 0,
    m_nmi_ff := 0, a20_line := 0, reset_pulses := 0,
    m_egc := { regs := fun _ => 0, pat := fun _ => 0, count := 0, first := false,
               init := false },
    m_tvram := fun _ => 0, m_video_ff := fun _ => 0, beeper_state := 0,
    m_mouse_control := 0, m_mouse_freq_reg := 0, m_mouse_freq_index := 0,
    m_dma_autoinc := fun _ => 0, m_dma_offset := fun _ => 0, m_dack := 0, ipl_bank := 0,
    m_fdc_ctrl := 0, m_ide_sel := 0, m_ide1_irq := false, m_ide2_irq := false,
    ide_rom := none }

/-- A concrete environment for running the handlers: flag indices 0 and 0x10,
`pal4bit` replicating the low nibble, a base read returning 0xff and a base
write that latches bit 0 of the data into `m_vram_bank` at offset 6. -/
def sample_ext : Ext :=
  { ANALOG_16_MODE := 0, ANALOG_256_MODE := 0x10,
    pal4bit := fun v => ((v &&& 0xf) <<< 4) ||| (v &&& 0xf),
    pc9801_a0_r := fun _ _ => 0xff,
    pc9801_a0_w := fun s offset data =>
      if offset = 6 then { s with m_vram_bank := data &&& 1 } else s }

/-- The state `init_state` with the 256-colour flag set. -/
def state_256 : State :=
  { init_state with m_ex_video_ff := fun k => if k = 0x10 then 1 else 0 }

/-- A stand-in for the program address space, used to run the DMA handlers on
concrete inputs: reads return the low byte of the address, writes latch the
data in the text VRAM word addressed. -/
def sample_program : Program :=
  { read_byte := fun _ addr => addr % 256,
    write_byte := fun s addr data => { s with m_tvram := store s.m_tvram addr data } }

/-- A stand-in for the GRCG access functions, used to run the graphic VRAM
handlers on concrete inputs: reads return the low 16 bits of the offset,
writes latch the data in the text VRAM word addressed. -/
def sample_grcg : Grcg :=
  { upd7220_grcg_r := fun _ offset _ => offset % 65536,
    upd7220_grcg_w := fun s offset data _ => { s with m_tvram := store s.m_tvram offset data } }

end PC9801

namespace Zexall

/-- The fields of `zexall_state`; `terminal` is the sequence of bytes sent to
the terminal device so far. -/
structure State where
  m_out_data : Nat
  m_out_req : Nat
  m_out_req_last : Nat
  m_out_ack : Nat
  terminal : List Nat

/-- The read handler `zexall_state::output_req_r`. -/
def output_req_r (s : State) : Nat := s.m_out_req

/-- The read handler `zexall_state::output_data_r`. -/
def output_data_r (s : State) : Nat := s.m_out_data

/-- The register part of `zexall_state::machine_reset`. -/
def machine_reset (s : State) : State :=
  { s with m_out_ack := 0, m_out_req := 0, m_out_req_last := 0, m_out_data := 0 }

end Zexall

namespace IoMap

/-- The handlers named in the two I/O tables: member functions under their own
name, device entry points as `<device>_<method>`, `nop` for `AM_NOP` /
`AM_WRITENOP`, and `upd765_2hd_map` for the device-supplied map of
`AM_DEVICE8("upd765_2hd", ..., map, ...)`. -/
inductive Handler where
  | i8237_read | i8237_write | pic_r | pic_w | rtc_w | dmapg8_w
  | ppi8255_sys_read | ppi8255_sys_write | ppi8255_prn_read | ppi8255_prn_write
  | keyb_rx_r | keyb_tx_w | ppi8255_fdd_read | ppi8255_fdd_write | nmi_ctrl_w
  | timestamp_r | nop | upd7220_chr_read | upd7220_chr_write | unk_r | vrtc_clear_w
  | pc9821_video_ff_w | pit8253_read | pit8253_write | txt_scrl_r | txt_scrl_w
  | grcg_r | grcg_w | sasi_data_r | sasi_data_w | sasi_status_r | sasi_ctrl_w
  | upd765_2hd_msr_r | upd765_2hd_fifo_r | upd765_2hd_fifo_w | upd765_2hd_map
  | fdc_2hd_ctrl_r | fdc_2hd_ctrl_w | upd8251_data_r | upd8251_data_w
  | upd8251_status_r | upd8251_control_w | pc9821_a0_r | pc9821_a0_w
  | fdc_mode_ctrl_r | fdc_mode_ctrl_w | a20_ctrl_r | a20_ctrl_w | ide_ctrl_r | ide_ctrl_w
  | access_ctrl_r | access_ctrl_w | pc9801rs_bank_w | window_bank_r | window_bank_w
  | egc_w | ide_cs0_r | ide_cs0_w | ide_cs1_r | ide_cs1_w | ext2_video_ff_r
  | ext2_video_ff_w | ppi8255_mouse_read | ppi8255_mouse_write
  | sdip_0_r | sdip_1_r | sdip_2_r | sdip_3_r | sdip_4_r | sdip_5_r | sdip_6_r | sdip_7_r
  | sdip_8_r | sdip_9_r | sdip_a_r | sdip_b_r
  | sdip_0_w | sdip_1_w | sdip_2_w | sdip_3_w | sdip_4_w | sdip_5_w | sdip_6_w | sdip_7_w
  | sdip_8_w | sdip_9_w | sdip_a_w | sdip_b_w | midi_r
  deriving DecidableEq

/-- One `AM_RANGE(lo, hi)` line of a table: the range, the byte-lane mask, and
the read and write handlers it installs. -/
structure Entry where
  lo : Nat
  hi : Nat
  mask : Nat
  rd : Option Handler
  wr : Option Handler

open Handler in
/-- The table `pc9801_common_io` (16-bit bus), line by line. -/
def pc9801_common_io : List Entry :=
  [ ⟨0x0000, 0x001f, 0xff00, some i8237_read, some i8237_write⟩,
    ⟨0x0000, 0x001f, 0x00ff, some pic_r, some pic_w⟩,
    ⟨0x0020, 0x002f, 0x00ff, none, some rtc_w⟩,
    ⟨0x0030, 0x0037, 0xff00, some ppi8255_sys_read, some ppi8255_sys_write⟩,
    ⟨0x0040, 0x0047, 0x00ff, some ppi8255_prn_read, some ppi8255_prn_write⟩,
    ⟨0x0040, 0x0047, 0xff00, some keyb_rx_r, some keyb_tx_w⟩,
    ⟨0x0050, 0x0057, 0xff00, some ppi8255_fdd_read, some ppi8255_fdd_write⟩,
    ⟨0x0050, 0x0057, 0x00ff, none, some nmi_ctrl_w⟩,
    ⟨0x0060, 0x0063, 0x00ff, some upd7220_chr_read, some upd7220_chr_write⟩,
    ⟨0x0064, 0x0065, 0x00ff, none, some vrtc_clear_w⟩,
    ⟨0x0070, 0x007f, 0xff00, some pit8253_read, some pit8253_write⟩,
    ⟨0x0070, 0x007f, 0x00ff, some txt_scrl_r, some txt_scrl_w⟩,
    ⟨0x0080, 0x0081, 0x00ff, some sasi_data_r, some sasi_data_w⟩,
    ⟨0x0082, 0x0083, 0x00ff, some sasi_status_r, some sasi_ctrl_w⟩,
    ⟨0x0090, 0x0091, 0x00ff, some upd765_2hd_msr_r, none⟩,
    ⟨0x0092, 0x0093, 0x00ff, some upd765_2hd_fifo_r, some upd765_2hd_fifo_w⟩,
    ⟨0x0094, 0x0095, 0x00ff, some fdc_2hd_ctrl_r, some fdc_2hd_ctrl_w⟩,
    ⟨0x0090, 0x0091, 0xff00, some upd8251_data_r, some upd8251_data_w⟩,
    ⟨0x0092, 0x0093, 0xff00, some upd8251_status_r, some upd8251_control_w⟩,
    ⟨0x7fd8, 0x7fdf, 0xff00, some ppi8255_mouse_read, some ppi8255_mouse_write⟩ ]

open Handler in
/-- The table `pc9821_io` (32-bit bus), line by line. -/
def pc9821_io : List Entry :=
  [ ⟨0x0000, 0x001f, 0xff00ff00, some i8237_read, some i8237_write⟩,
    ⟨0x0000, 0x001f, 0x00ff00ff, some pic_r, some pic_w⟩,
    ⟨0x0020, 0x002f, 0x000000ff, none, some rtc_w⟩,
    ⟨0x0020, 0x002f, 0xff00ff00, none, some dmapg8_w⟩,
    ⟨0x0030, 0x0037, 0xff00ff00, some ppi8255_sys_read, some ppi8255_sys_write⟩,
    ⟨0x0040, 0x0047, 0x00ff00ff, some ppi8255_prn_read, some ppi8255_prn_write⟩,
    ⟨0x0040, 0x0047, 0xff00ff00, some keyb_rx_r, some keyb_tx_w⟩,
    ⟨0x0050, 0x0053, 0x00ff00ff, none, some nmi_ctrl_w⟩,
    ⟨0x005c, 0x005f, 0xffffffff, some timestamp_r, some nop⟩,
    ⟨0x0060, 0x0063, 0x00ff00ff, some upd7220_chr_read, some upd7220_chr_write⟩,
    ⟨0x0060, 0x0063, 0xff00ff00, some unk_r, none⟩,
    ⟨0x0064, 0x0067, 0x000000ff, none, some vrtc_clear_w⟩,
    ⟨0x0068, 0x006b, 0x00ff00ff, none, some pc9821_video_ff_w⟩,
    ⟨0x0070, 0x007f, 0xff00ff00, some pit8253_read, some pit8253_write⟩,
    ⟨0x0070, 0x007f, 0x00ff00ff, some grcg_r, some grcg_w⟩,
    ⟨0x0090, 0x0093, 0x00ff00ff, some upd765_2hd_map, some upd765_2hd_map⟩,
    ⟨0x0094, 0x0097, 0x000000ff, some fdc_2hd_ctrl_r, some fdc_2hd_ctrl_w⟩,
    ⟨0x00a0, 0x00af, 0xffffffff, some pc9821_a0_r, some pc9821_a0_w⟩,
    ⟨0x00bc, 0x00bf, 0xffffffff, some fdc_mode_ctrl_r, some fdc_mode_ctrl_w⟩,
    ⟨0x00c8, 0x00cb, 0x00ff00ff, some upd765_2hd_map, some upd765_2hd_map⟩,
    ⟨0x00cc, 0x00cf, 0x000000ff, some fdc_2hd_ctrl_r, some fdc_2hd_ctrl_w⟩,
    ⟨0x00f0, 0x00ff, 0x00ff00ff, some a20_ctrl_r, some a20_ctrl_w⟩,
    ⟨0x0430, 0x0433, 0x00ff00ff, some ide_ctrl_r, some ide_ctrl_w⟩,
    ⟨0x0438, 0x043b, 0xffffffff, some access_ctrl_r, some access_ctrl_w⟩,
    ⟨0x043c, 0x043f, 0xffffffff, none, some pc9801rs_bank_w⟩,
    ⟨0x0460, 0x0463, 0xffffffff, some window_bank_r, some window_bank_w⟩,
    ⟨0x04a0, 0x04af, 0xffffffff, none, some egc_w⟩,
    ⟨0x0640, 0x064f, 0xffffffff, some ide_cs0_r, some ide_cs0_w⟩,
    ⟨0x0740, 0x074f, 0xffffffff, some ide_cs1_r, some ide_cs1_w⟩,
    ⟨0x09a0, 0x09a3, 0x000000ff, some ext2_video_ff_r, some ext2_video_ff_w⟩,
    ⟨0x1e8c, 0x1e8f, 0xffffffff, some nop, some nop⟩,
    ⟨0x3fd8, 0x3fdf, 0xff00ff00, some pit8253_read, some pit8253_write⟩,
    ⟨0x7fd8, 0x7fdf, 0xff00ff00, some ppi8255_mouse_read, some ppi8255_mouse_write⟩,
    ⟨0x841c, 0x841f, 0xffffffff, some sdip_0_r, some sdip_0_w⟩,
    ⟨0x851c, 0x851f, 0xffffffff, some sdip_1_r, some sdip_1_w⟩,
    ⟨0x861c, 0x861f, 0xffffffff, some sdip_2_r, some sdip_2_w⟩,
    ⟨0x871c, 0x871f, 0xffffffff, some sdip_3_r, some sdip_3_w⟩,
    ⟨0x881c, 0x881f, 0xffffffff, some sdip_4_r, some sdip_4_w⟩,
    ⟨0x891c, 0x891f, 0xffffffff, some sdip_5_r, some sdip_5_w⟩,
    ⟨0x8a1c, 0x8a1f, 0xffffffff, some sdip_6_r, some sdip_6_w⟩,
    ⟨0x8b1c, 0x8b1f, 0xffffffff, some sdip_7_r, some sdip_7_w⟩,
    ⟨0x8c1c, 0x8c1f, 0xffffffff, some sdip_8_r, some sdip_8_w⟩,
    ⟨0x8d1c, 0x8d1f, 0xffffffff, some sdip_9_r, some sdip_9_w⟩,
    ⟨0x8e1c, 0x8e1f, 0xffffffff, some sdip_a_r, some sdip_a_w⟩,
    ⟨0x8f1c, 0x8f1f, 0xffffffff, some sdip_b_r, some sdip_b_w⟩,
    ⟨0xe0d0, 0xe0d3, 0xffffffff, some midi_r, none⟩ ]

/-- Modelled from the spec: the address-map machinery is outside these files.
A line covers the byte port `p` on a bus of `width` bytes when `p` lies in its
range and the mask selects the byte lane `p mod width` ("a mask of which byte
lanes are being written"). -/
def covers (width : Nat) (e : Entry) (p : Nat) : Bool :=
  decide (e.lo ≤ p) && decide (p ≤ e.hi) && ((e.mask >>> (8 * (p % width))) &&& 0xff != 0)

/-- The handlers a table binds to the byte port `p`: the read and write
handlers of every line that covers it. -/
def bound (width : Nat) (tbl : List Entry) (p : Nat) : List Handler :=
  (tbl.filter (fun e => covers width e p)).flatMap (fun e => e.rd.toList ++ e.wr.toList)

open Handler in
/-- The bindings of `pc9801_common_io` that `pc9821_io` does not carry: the
text-scroll registers, the SASI ports, the floppy PPI, the serial port, the
direct FDC status and FIFO handlers, `rtc_w` at ports 2 modulo 4 and
`nmi_ctrl_w` from port `0x54` on. -/
def dropped (h : Handler) (p : Nat) : Bool :=
  [txt_scrl_r, txt_scrl_w, sasi_data_r, sasi_data_w, sasi_status_r, sasi_ctrl_w,
    ppi8255_fdd_read, ppi8255_fdd_write, upd8251_data_r, upd8251_data_w, upd8251_status_r,
    upd8251_control_w, upd765_2hd_msr_r, upd765_2hd_fifo_r, upd765_2hd_fifo_w].contains h
    || (decide (h = rtc_w) && decide (p % 4 = 2))
    || (decide (h = nmi_ctrl_w) && decide (0x54 ≤ p))

/-- Whether, at port `p`, every handler bound by `pc9801_common_io` is bound by
`pc9821_io` exactly when it is not one of the dropped bindings. -/
def agrees_at (p : Nat) : Bool :=
  (bound 2 pc9801_common_io p).all
    (fun h => (bound 4 pc9821_io p).contains h == !dropped h p)

end IoMap

namespace MS0515

theorem BIT_eq_div_mod (x n : Nat) : BIT x n = x / 2 ^ n % 2 := by
  unfold BIT
  rw [Nat.shiftRight_eq_div_pow, Nat.and_one_is_mod]

theorem BIT_le_one (x n : Nat) : BIT x n = 0 ∨ BIT x n = 1 := by
  rw [BIT_eq_div_mod]; omega

/-- With bit 7 clear the handler leaves every window on its per-bit base. -/
theorem bank_w_no_overlay (s : State) (d m n : Nat) (h7 : BIT d 7 = 0) (hn : n < 7) :
    (ms0515_bank_w s d m).bank n = per_bit_base d n := by
  unfold ms0515_bank_w
  simp only [h7, ne_eq, not_true_eq_false, if_false]
  interval_cases n <;> simp [set_base, per_bit_base]

theorem BIT_eq_testBit (x n : Nat) : BIT x n = if x.testBit n then 1 else 0 := by
  rcases BIT_le_one x n with h | h <;>
    simp [Nat.testBit, Nat.and_comm 1, BIT] at * <;> simp [h]

theorem per_bit_base_eq (d n : Nat) :
    per_bit_base d n = n * 8192 + (if d.testBit n then 57344 else 0) := by
  unfold per_bit_base
  rw [BIT_eq_testBit]
  split <;> simp

theorem field_lt_four (d : Nat) : (d >>> 10) &&& 3 = d / 1024 % 4 := by
  rw [Nat.shiftRight_eq_div_pow]
  exact Nat.and_pow_two_sub_one_eq_mod (d / 2 ^ 10) 2

theorem testBit_iff_div_mod (d n : Nat) : d.testBit n = true ↔ d / 2 ^ n % 2 = 1 := by
  rw [Nat.testBit_to_div_mod]; simp

/-- The handler's window mapping depends on the written value only. -/
theorem bank_w_resolve (s : State) (d m n : Nat) (hn : n < 7) :
    (ms0515_bank_w s d m).bank n = resolve d n := by
  have h10 := testBit_iff_div_mod d 10
  have h11 := testBit_iff_div_mod d 11
  have hf := field_lt_four d
  unfold ms0515_bank_w resolve
  rw [BIT_eq_testBit d 7]
  by_cases h7 : d.testBit 7 = true
  · simp only [h7, if_true, ne_eq, one_ne_zero, not_false_eq_true]
    by_cases b11 : d.testBit 11 = true <;> by_cases b10 : d.testBit 10 = true
    · have hv : (d >>> 10) &&& 3 = 3 := by
        have := h10.1 b10; have := h11.1 b11; omega
      simp only [hv, b11, if_true]
      interval_cases n <;> simp [set_base, per_bit_base]
    · have hv : (d >>> 10) &&& 3 = 2 := by
        have := h11.1 b11
        have : ¬ d / 2 ^ 10 % 2 = 1 := fun h => b10 (h10.2 h)
        omega
      simp only [hv, b11, if_true]
      interval_cases n <;> simp [set_base, per_bit_base]
    · have hv : (d >>> 10) &&& 3 = 1 := by
        have := h10.1 b10
        have : ¬ d / 2 ^ 11 % 2 = 1 := fun h => b11 (h11.2 h)
        omega
      simp only [hv, b11, b10, if_true, if_false]
      interval_cases n <;> simp [set_base, per_bit_base]
    · have hv : (d >>> 10) &&& 3 = 0 := by
        have : ¬ d / 2 ^ 10 % 2 = 1 := fun h => b10 (h10.2 h)
        have : ¬ d / 2 ^ 11 % 2 = 1 := fun h => b11 (h11.2 h)
        omega
      simp only [hv, b11, b10, if_false]
      interval_cases n <;> simp [set_base, per_bit_base]
  · simp only [h7, if_false, ne_eq, not_true_eq_false]
    interval_cases n <;> simp [set_base, per_bit_base]

/-- Claim C1: with bit 7 of the written value clear, each window `N` in 0..6
is backed by RAM offset `N * 8192`, plus the stride 57344 when bit `N` is set;
writing 0 backs window 0 with offset 0 and writing 1 backs it with 57344. -/
theorem C1_bank_w_per_bit (s : State) (d m N : Nat) (hd : d < 65536)
    (h7 : d.testBit 7 = false) (hN : N < 7) :
    (ms0515_bank_w s d m).bank N = N * 8192 + (if d.testBit N then 57344 else 0)
      ∧ (ms0515_bank_w s 0 m).bank 0 = 0
      ∧ (ms0515_bank_w s 1 m).bank 0 = 57344 := by
  have _ := hd
  have h7b : BIT d 7 = 0 := by rw [BIT_eq_testBit, h7]; simp
  refine ⟨?_, ?_, ?_⟩
  · rw [bank_w_no_overlay s d m N h7b hN, per_bit_base_eq]
  · rw [bank_w_no_overlay s 0 m 0 (by decide) (by decide)]; decide
  · rw [bank_w_no_overlay s 1 m 0 (by decide) (by decide)]; decide

/-- Witness for C1 at the written value `0x0041`, window 6. -/
theorem C1_bank_w_per_bit_witness :
    (ms0515_bank_w init_state 65 65535).bank 6 = 6 * 8192 + 57344 :=
  (C1_bank_w_per_bit init_state 65 65535 6 (by decide) (by decide) (by decide)).1

theorem testBit_flip_ne (d N k : Nat) (h : k ≠ N) :
    (d ^^^ (1 <<< N)).testBit k = d.testBit k := by
  rw [Nat.testBit_xor, Nat.one_shiftLeft, Nat.testBit_two_pow]
  have : decide (N = k) = false := by simp; omega
  simp [this]

theorem per_bit_base_flip_ne (d N k : Nat) (h : k ≠ N) :
    per_bit_base (d ^^^ (1 <<< N)) k = per_bit_base d k := by
  rw [per_bit_base_eq, per_bit_base_eq, testBit_flip_ne d N k h]

theorem per_bit_base_lt (d n : Nat) (hn : n < 7) : per_bit_base d n < 114688 := by
  unfold per_bit_base
  rcases BIT_le_one d n with h | h <;> rw [h] <;> omega

theorem resolve_flip_ne (d N M : Nat) (hN : N < 7) (h : M ≠ N) :
    resolve (d ^^^ (1 <<< N)) M = resolve d M := by
  unfold resolve
  rw [testBit_flip_ne d N 7 (by omega), testBit_flip_ne d N 10 (by omega),
    testBit_flip_ne d N 11 (by omega), per_bit_base_flip_ne d N M h]

/-- Claim C2: flipping selector bit `N` (0..6) of the written value leaves the
backing RAM offset of every other window `M` in 0..6 unchanged. -/
theorem C2_bank_w_flip_independent (s : State) (d m N M : Nat) (hd : d < 65536)
    (hN : N < 7) (hM : M < 7) (hne : M ≠ N) :
    (ms0515_bank_w s (d ^^^ (1 <<< N)) m).bank M = (ms0515_bank_w s d m).bank M := by
  have _ := hd
  rw [bank_w_resolve _ _ _ _ hM, bank_w_resolve _ _ _ _ hM, resolve_flip_ne d N M hN hne]

/-- Witness for C2: flipping bit 3 of `0x0C85` does not move window 5. -/
theorem C2_bank_w_flip_independent_witness :
    (ms0515_bank_w init_state (3205 ^^^ (1 <<< 3)) 65535).bank 5
      = (ms0515_bank_w init_state 3205 65535).bank 5 :=
  C2_bank_w_flip_independent init_state 3205 65535 3 5 (by decide) (by decide) (by decide)
    (by decide)

/-- Claim C3: with bit 7 set and `s` the field in bits 11..10, exactly one pair
of windows sits on the video-RAM alias at offsets 114688 and 122880, whatever
its selector bits: (0,1) for `s = 0`, (2,3) for `s = 1`, (4,5) for `s = 2` or
`s = 3`; the other five windows keep the per-bit mapping, below the alias. -/
theorem C3_bank_w_overlay (st : State) (d m : Nat) (hd : d < 65536)
    (h7 : d.testBit 7 = true) :
    (d / 1024 % 4 = 0 →
        (ms0515_bank_w st d m).bank 0 = 114688 ∧ (ms0515_bank_w st d m).bank 1 = 122880 ∧
        ∀ N, N < 7 → N ≠ 0 → N ≠ 1 →
          (ms0515_bank_w st d m).bank N = N * 8192 + (if d.testBit N then 57344 else 0)
            ∧ (ms0515_bank_w st d m).bank N < 114688) ∧
    (d / 1024 % 4 = 1 →
        (ms0515_bank_w st d m).bank 2 = 114688 ∧ (ms0515_bank_w st d m).bank 3 = 122880 ∧
        ∀ N, N < 7 → N ≠ 2 → N ≠ 3 →
          (ms0515_bank_w st d m).bank N = N * 8192 + (if d.testBit N then 57344 else 0)
            ∧ (ms0515_bank_w st d m).bank N < 114688) ∧
    (d / 1024 % 4 = 2 ∨ d / 1024 % 4 = 3 →
        (ms0515_bank_w st d m).bank 4 = 114688 ∧ (ms0515_bank_w st d m).bank 5 = 122880 ∧
        ∀ N, N < 7 → N ≠ 4 → N ≠ 5 →
          (ms0515_bank_w st d m).bank N = N * 8192 + (if d.testBit N then 57344 else 0)
            ∧ (ms0515_bank_w st d m).bank N < 114688) := by
  have _ := hd
  have h10 := testBit_iff_div_mod d 10
  have h11 := testBit_iff_div_mod d 11
  refine ⟨fun hs => ?_, fun hs => ?_, fun hs => ?_⟩
  · have b10 : d.testBit 10 = false := by
      rw [Bool.eq_false_iff]; intro h; have := h10.1 h; omega
    have b11 : d.testBit 11 = false := by
      rw [Bool.eq_false_iff]; intro h; have := h11.1 h; omega
    refine ⟨?_, ?_, fun N hN n0 n1 => ?_⟩
    · rw [bank_w_resolve _ _ _ _ (by decide)]; simp [resolve, h7, b10, b11]
    · rw [bank_w_resolve _ _ _ _ (by decide)]; simp [resolve, h7, b10, b11]
    · rw [bank_w_resolve _ _ _ _ hN]
      have e : resolve d N = per_bit_base d N := by simp [resolve, h7, b10, b11, n0, n1]
      rw [e]
      exact ⟨per_bit_base_eq d N, per_bit_base_lt d N hN⟩
  · have b10 : d.testBit 10 = true := h10.2 (by omega)
    have b11 : d.testBit 11 = false := by
      rw [Bool.eq_false_iff]; intro h; have := h11.1 h; omega
    refine ⟨?_, ?_, fun N hN n0 n1 => ?_⟩
    · rw [bank_w_resolve _ _ _ _ (by decide)]; simp [resolve, h7, b10, b11]
    · rw [bank_w_resolve _ _ _ _ (by decide)]; simp [resolve, h7, b10, b11]
    · rw [bank_w_resolve _ _ _ _ hN]
      have e : resolve d N = per_bit_base d N := by simp [resolve, h7, b10, b11, n0, n1]
      rw [e]
      exact ⟨per_bit_base_eq d N, per_bit_base_lt d N hN⟩
  · have b11 : d.testBit 11 = true := h11.2 (by omega)
    refine ⟨?_, ?_, fun N hN n0 n1 => ?_⟩
    · rw [bank_w_resolve _ _ _ _ (by decide)]; simp [resolve, h7, b11]
    · rw [bank_w_resolve _ _ _ _ (by decide)]; simp [resolve, h7, b11]
    · rw [bank_w_resolve _ _ _ _ hN]
      have e : resolve d N = per_bit_base d N := by simp [resolve, h7, b11, n0, n1]
      rw [e]
      exact ⟨per_bit_base_eq d N, per_bit_base_lt d N hN⟩

/-- Witness for C3 at `0x0483` (bit 7 set, field 1, selector bits 0 and 1 set):
windows 2 and 3 are on the alias. -/
theorem C3_bank_w_overlay_witness :
    (ms0515_bank_w init_state 1155 65535).bank 2 = 114688
      ∧ (ms0515_bank_w init_state 1155 65535).bank 3 = 122880 :=
  let h := (C3_bank_w_overlay init_state 1155 65535 (by decide) (by decide)).2.1 (by decide)
  ⟨h.1, h.2.1⟩

/-- Claim C4: with bits 7 and 11 set, the written value and the value with bit
10 toggled (field 2 against field 3) back all seven windows identically, and
windows 4 and 5 sit on the video-RAM alias in both cases. -/
theorem C4_bank_w_field_2_3 (s : State) (d m N : Nat) (hd : d < 65536)
    (h7 : d.testBit 7 = true) (h11 : d.testBit 11 = true) (hN : N < 7) :
    (ms0515_bank_w s d m).bank N = (ms0515_bank_w s (d ^^^ 1024) m).bank N
      ∧ (ms0515_bank_w s d m).bank 4 = 114688
      ∧ (ms0515_bank_w s d m).bank 5 = 122880
      ∧ (ms0515_bank_w s (d ^^^ 1024) m).bank 4 = 114688
      ∧ (ms0515_bank_w s (d ^^^ 1024) m).bank 5 = 122880 := by
  have _ := hd
  have e : (1024 : Nat) = 1 <<< 10 := by decide
  have f7 : (d ^^^ 1024).testBit 7 = true := by
    rw [e, testBit_flip_ne d 10 7 (by decide), h7]
  have f11 : (d ^^^ 1024).testBit 11 = true := by
    rw [e, testBit_flip_ne d 10 11 (by decide), h11]
  have fp : ∀ k, k < 7 → per_bit_base (d ^^^ 1024) k = per_bit_base d k := fun k hk => by
    rw [e, per_bit_base_flip_ne d 10 k (by omega)]
  refine ⟨?_, ?_, ?_, ?_, ?_⟩
  · rw [bank_w_resolve _ _ _ _ hN, bank_w_resolve _ _ _ _ hN]
    simp only [resolve, h7, h11, f7, f11, if_true, fp N hN]
  · rw [bank_w_resolve _ _ _ _ (by decide)]; simp [resolve, h7, h11]
  · rw [bank_w_resolve _ _ _ _ (by decide)]; simp [resolve, h7, h11]
  · rw [bank_w_resolve _ _ _ _ (by decide)]; simp [resolve, f7, f11]
  · rw [bank_w_resolve _ _ _ _ (by decide)]; simp [resolve, f7, f11]

/-- Witness for C4 at `0x08B0` (field 2) against `0x0CB0` (field 3), window 4. -/
theorem C4_bank_w_field_2_3_witness :
    (ms0515_bank_w init_state 2224 65535).bank 4
      = (ms0515_bank_w init_state (2224 ^^^ 1024) 65535).bank 4 :=
  (C4_bank_w_field_2_3 init_state 2224 65535 4 (by decide) (by decide) (by decide)
    (by decide)).1

theorem bank_w_bankreg (s : State) (d m : Nat) : (ms0515_bank_w s d m).m_bankreg = d := by
  unfold ms0515_bank_w
  simp only []
  split
  · split <;> rfl
  · rfl

theorem bank_w_irqs (s : State) (d m : Nat) :
    (ms0515_bank_w s d m).m_irqs =
      if BIT (d ^^^ s.m_bankreg) 8 ≠ 0 then
        (irq_encoder s 2 (if BIT d 8 ≠ 0 then ASSERT_LINE else CLEAR_LINE)).m_irqs
      else s.m_irqs := by
  unfold ms0515_bank_w
  simp only []
  split
  · split <;> split <;> rfl
  · split <;> rfl

theorem irq_encoder_irqs (s : State) (irq state : Nat) :
    (irq_encoder s irq state).m_irqs =
      if state = ASSERT_LINE then (s.m_irqs ||| (1 <<< irq)) % 65536
      else s.m_irqs &&& (65535 ^^^ ((1 <<< irq) % 65536)) := rfl

theorem machine_reset_regs (s : State) :
    (machine_reset s).m_bankreg = 0 ∧ (machine_reset s).m_irqs = 0 := by
  unfold machine_reset
  exact ⟨bank_w_bankreg s 0 65535, rfl⟩

/-- Counterexample to C5 as stated: from the reset state the write `0x0080`
(bit 7 from 0 to 1, field 00) leaves IRQ 2 not pending. -/
theorem C5_bit7_counterexample :
    ¬ ((ms0515_bank_w (machine_reset init_state) 128 65535).m_irqs.testBit 2 = true) := by
  decide

/-- Claim C5, amended: from the reset state (bank register 0, nothing
pending) a write with bit 8 set makes exactly IRQ 2 pending, a later write
with bit 8 clear removes it again, and a write from reset that leaves bit 8
clear (such as `0x0080`, which only raises bit 7) leaves nothing pending. -/
theorem C5_bank_w_irq_bit8 (s : State) (d e m m' : Nat) (hd : d < 65536) (he : e < 65536)
    (h8 : d.testBit 8 = true) (h8' : e.testBit 8 = false) :
    (machine_reset s).m_bankreg = 0 ∧ (machine_reset s).m_irqs = 0
      ∧ (ms0515_bank_w (machine_reset s) d m).m_irqs = 4
      ∧ (ms0515_bank_w (machine_reset s) d m).m_irqs.testBit 2 = true
      ∧ (ms0515_bank_w (ms0515_bank_w (machine_reset s) d m) e m').m_irqs = 0
      ∧ (ms0515_bank_w (machine_reset s) e m').m_irqs = 0 := by
  have _ := hd
  have _ := he
  obtain ⟨hb, hi⟩ := machine_reset_regs s
  have bd : BIT d 8 = 1 := by rw [BIT_eq_testBit, h8]; rfl
  have be : BIT e 8 = 0 := by rw [BIT_eq_testBit, h8']; rfl
  have h1 : (ms0515_bank_w (machine_reset s) d m).m_irqs = 4 := by
    rw [bank_w_irqs, hb, Nat.xor_zero, bd, irq_encoder_irqs, hi]
    decide
  have hx : BIT (e ^^^ d) 8 = 1 := by
    rw [BIT_eq_testBit, Nat.testBit_xor, h8, h8']; rfl
  refine ⟨hb, hi, h1, ?_, ?_, ?_⟩
  · rw [h1]; decide
  · rw [bank_w_irqs, bank_w_bankreg, hx, be, irq_encoder_irqs, h1]
    decide
  · rw [bank_w_irqs, hb, Nat.xor_zero, be, hi]
    simp

/-- Witness for the amended C5: `0x0100` after reset, then `0x0000`. -/
theorem C5_bank_w_irq_bit8_witness :
    (ms0515_bank_w (machine_reset init_state) 256 65535).m_irqs = 4
      ∧ (ms0515_bank_w (ms0515_bank_w (machine_reset init_state) 256 65535) 0 65535).m_irqs
          = 0 :=
  let h := C5_bank_w_irq_bit8 init_state 256 0 65535 65535 (by decide) (by decide)
    (by decide) (by decide)
  ⟨h.2.2.1, h.2.2.2.2.1⟩

theorem not16_eq_sub (m : Nat) (hm : m < 65536) : 65535 ^^^ m = 65535 - m := by
  apply Nat.eq_of_testBit_eq
  intro i
  have e : 65535 - m = 2 ^ 16 - (m + 1) := by omega
  have f : (65535 : Nat) = 2 ^ 16 - 1 := by norm_num
  rw [e, Nat.testBit_two_pow_sub_succ (by simpa using hm), Nat.testBit_xor, f,
    Nat.testBit_two_pow_sub_one]
  by_cases hi : i < 16
  · simp [hi]
  · have : m.testBit i = false :=
      Nat.testBit_lt_two_pow (lt_of_lt_of_le hm (by
        have : 2 ^ 16 ≤ 2 ^ i := Nat.pow_le_pow_right (by norm_num) (by omega)
        simpa using this))
    simp [hi, this]

theorem COMBINE_DATA_eq (reg data mask : Nat) (hm : mask < 65536) :
    COMBINE_DATA reg data mask = (reg &&& (65535 - mask)) ||| (data &&& mask) := by
  unfold COMBINE_DATA
  rw [Nat.mod_eq_of_lt hm, not16_eq_sub mask hm]
  apply Nat.mod_eq_of_lt
  have h1 : reg &&& (65535 - mask) < 2 ^ 16 := Nat.and_lt_two_pow _ (by omega)
  have h2 : data &&& mask < 2 ^ 16 := Nat.and_lt_two_pow _ (by simpa using hm)
  simpa using Nat.or_lt_two_pow h1 h2

theorem COMBINE_DATA_testBit (reg data mask i : Nat) (hr : reg < 65536) (hd : data < 65536)
    (hm : mask < 65536) :
    (COMBINE_DATA reg data mask).testBit i =
      if mask.testBit i then data.testBit i else reg.testBit i := by
  rw [COMBINE_DATA_eq reg data mask hm, ← not16_eq_sub mask hm]
  have f : (65535 : Nat) = 2 ^ 16 - 1 := by norm_num
  rw [Nat.testBit_or, Nat.testBit_and, Nat.testBit_and, Nat.testBit_xor, f,
    Nat.testBit_two_pow_sub_one]
  by_cases hi : i < 16
  · cases hmi : mask.testBit i <;> simp [hi]
  · have big : ∀ x, x < 65536 → x.testBit i = false := fun x hx =>
      Nat.testBit_lt_two_pow (lt_of_lt_of_le hx (by
        have : 2 ^ 16 ≤ 2 ^ i := Nat.pow_le_pow_right (by norm_num) (by omega)
        simpa using this))
    simp [big reg hr, big data hd, big mask hm]

/-- Claim C6: a masked write to the halt register leaves it holding
`(old AND NOT mask) OR (data AND mask)` (bit by bit: the data bit where the
mask bit is set, the old bit elsewhere), the read handler returns that value,
and with old `0xABCD` and mask `0x00FF` the result is `0xAB00 OR (data AND 0xFF)`. -/
theorem C6_halt_w_mask (s : State) (data mask : Nat) (ho : s.m_haltreg < 65536)
    (hd : data < 65536) (hm : mask < 65536) :
    ms0515_halt_r (ms0515_halt_w s data mask)
        = (s.m_haltreg &&& (65535 - mask)) ||| (data &&& mask)
      ∧ (∀ i, (ms0515_halt_r (ms0515_halt_w s data mask)).testBit i =
          if mask.testBit i then data.testBit i else s.m_haltreg.testBit i)
      ∧ (s.m_haltreg = 0xABCD → mask = 0x00FF →
          ms0515_halt_r (ms0515_halt_w s data mask) = 0xAB00 ||| (data &&& 0x00FF)) := by
  have e : ms0515_halt_r (ms0515_halt_w s data mask) = COMBINE_DATA s.m_haltreg data mask := rfl
  refine ⟨?_, fun i => ?_, fun h1 h2 => ?_⟩
  · rw [e, COMBINE_DATA_eq _ _ _ hm]
  · rw [e, COMBINE_DATA_testBit _ _ _ _ ho hd hm]
  · have c : (0xABCD : Nat) &&& (65535 - 0x00FF) = 0xAB00 := by decide
    rw [e, COMBINE_DATA_eq _ _ _ hm, h1, h2, c]

/-- Witness for C6: old `0xABCD`, data `0x1234`, mask `0x00FF` gives `0xAB34`. -/
theorem C6_halt_w_mask_witness :
    ms0515_halt_r (ms0515_halt_w { init_state with m_haltreg := 0xABCD } 0x1234 0x00FF)
      = 0xAB00 ||| (0x1234 &&& 0x00FF) :=
  (C6_halt_w_mask { init_state with m_haltreg := 0xABCD } 0x1234 0x00FF (by decide)
    (by decide) (by decide)).2.2 rfl rfl

/-- Claim C7, the code at the failing input: the bank-register handler stores
the written word whatever the mask, so with the register at `0x0300` a write
of `0x0001` under mask `0x00FF` leaves `0x0001`, clearing bits 8 and 9, where
the masked combination would be `0x0301`. -/
theorem C7_bank_w_ignores_mask :
    (∀ (s : State) (d m : Nat), (ms0515_bank_w s d m).m_bankreg = d)
      ∧ (ms0515_bank_w { init_state with m_bankreg := 0x0300 } 0x0001 0x00FF).m_bankreg = 0x0001
      ∧ COMBINE_DATA 0x0300 0x0001 0x00FF = 0x0301
      ∧ (ms0515_bank_w { init_state with m_bankreg := 0x0300 } 0x0001 0x00FF).m_bankreg.testBit 8
          ≠ (0x0300 : Nat).testBit 8 := by
  refine ⟨bank_w_bankreg, bank_w_bankreg _ _ _, by decide, ?_⟩
  rw [bank_w_bankreg]
  decide

theorem and_shift_ne_zero (m i : Nat) : m &&& (1 <<< i) ≠ 0 ↔ m.testBit i = true := by
  rw [Nat.one_shiftLeft]
  constructor
  · intro h
    by_contra hb
    apply h
    apply Nat.eq_of_testBit_eq
    intro j
    rw [Nat.testBit_and, Nat.testBit_two_pow, Nat.zero_testBit]
    by_cases hij : i = j
    · subst hij; simp [hb]
    · simp [hij]
  · intro hb h
    have := congrArg (fun x => x.testBit i) h
    simp [Nat.testBit_and, Nat.testBit_two_pow_self, hb] at this

theorem irq_scan_spec (m : Nat) : ∀ n, highest_pending n m (irq_scan m n) := by
  intro n
  induction n with
  | zero =>
    left
    exact ⟨rfl, fun i h1 h2 => by omega⟩
  | succ n ih =>
    unfold irq_scan
    by_cases hb : m &&& (1 <<< (n + 1)) ≠ 0
    · rw [if_pos hb]
      right
      exact ⟨by omega, le_refl _, (and_shift_ne_zero m (n + 1)).1 hb, fun i h1 h2 => by omega⟩
    · rw [if_neg hb]
      have hf : m.testBit (n + 1) = false := by
        rw [Bool.eq_false_iff]
        exact fun h => hb ((and_shift_ne_zero m (n + 1)).2 h)
      rcases ih with ⟨h0, hall⟩ | ⟨h1, h2, h3, h4⟩
      · left
        refine ⟨h0, fun i hi1 hi2 => ?_⟩
        by_cases he : i = n + 1
        · rw [he]; exact hf
        · exact hall i hi1 (by omega)
      · right
        refine ⟨h1, by omega, h3, fun i hi1 hi2 => ?_⟩
        by_cases he : i = n + 1
        · rw [he]; exact hf
        · exact h4 i hi1 (by omega)

theorem highest_pending_unique (n m h k : Nat) (hh : highest_pending n m h)
    (hk : highest_pending n m k) : h = k := by
  rcases hh with ⟨h0, hall⟩ | ⟨h1, h2, h3, h4⟩ <;> rcases hk with ⟨k0, kall⟩ | ⟨k1, k2, k3, k4⟩
  · rw [h0, k0]
  · have := hall k k1 k2
    rw [k3] at this
    exact absurd this (by decide)
  · have := kall h h1 h2
    rw [h3] at this
    exact absurd this (by decide)
  · rcases Nat.lt_trichotomy h k with hlt | heq | hgt
    · have := h4 k hlt k2
      rw [k3] at this
      exact absurd this (by decide)
    · exact heq
    · have := k4 h hgt h2
      rw [h3] at this
      exact absurd this (by decide)

theorem irq_encoder_testBit (s : State) (irq state k : Nat) (hk : k < 16) :
    (irq_encoder s irq state).m_irqs.testBit k =
      if k = irq then decide (state = ASSERT_LINE) else s.m_irqs.testBit k := by
  rw [irq_encoder_irqs]
  have e16 : (65536 : Nat) = 2 ^ 16 := by norm_num
  have e15 : (65535 : Nat) = 2 ^ 16 - 1 := by norm_num
  by_cases hs : state = ASSERT_LINE
  · rw [if_pos hs, e16, Nat.testBit_mod_two_pow, Nat.testBit_or, Nat.one_shiftLeft,
      Nat.testBit_two_pow]
    by_cases he : k = irq
    · subst he; simp [hk, hs]
    · have : ¬ irq = k := fun h => he h.symm
      simp [hk, he, this]
  · rw [if_neg hs, Nat.testBit_and, Nat.testBit_xor, e16, Nat.testBit_mod_two_pow, e15,
      Nat.testBit_two_pow_sub_one, Nat.one_shiftLeft, Nat.testBit_two_pow]
    by_cases he : k = irq
    · subst he; simp [hk, hs]
    · have : ¬ irq = k := fun h => he h.symm
      simp [hk, he, this]

theorem irq_encoder_lt (s : State) (irq state : Nat) (hm : s.m_irqs < 65536) :
    (irq_encoder s irq state).m_irqs < 65536 := by
  rw [irq_encoder_irqs]
  split
  · exact Nat.mod_lt _ (by norm_num)
  · exact lt_of_le_of_lt Nat.and_le_left hm

theorem code_bit (i n : Nat) :
    (if i &&& (1 <<< n) ≠ 0 then ASSERT_LINE else CLEAR_LINE)
      = if i.testBit n then ASSERT_LINE else CLEAR_LINE := by
  by_cases h : i.testBit n = true
  · rw [if_pos ((and_shift_ne_zero i n).2 h), if_pos h]
  · rw [if_neg (fun k => h ((and_shift_ne_zero i n).1 k)), if_neg h]

theorem irq_encoder_line (s : State) (irq state n : Nat) :
    (irq_encoder s irq state).line n =
      if n < 4 then
        (if (irq_scan (irq_encoder s irq state).m_irqs 15).testBit n then ASSERT_LINE
         else CLEAR_LINE)
      else s.line n := by
  have c3 := code_bit (irq_scan (irq_encoder s irq state).m_irqs 15) 3
  have c2 := code_bit (irq_scan (irq_encoder s irq state).m_irqs 15) 2
  have c1 := code_bit (irq_scan (irq_encoder s irq state).m_irqs 15) 1
  have c0 := code_bit (irq_scan (irq_encoder s irq state).m_irqs 15) 0
  rw [irq_encoder_irqs] at c3 c2 c1 c0
  rw [irq_encoder_irqs]
  simp only [Nat.reduceShiftLeft] at c3 c2 c1 c0
  unfold irq_encoder set_input_line
  simp only []
  by_cases h0 : n = 0
  · subst h0; simp
  · by_cases h1 : n = 1
    · subst h1; simpa using c1
    · by_cases h2 : n = 2
      · subst h2; simpa using c2
      · by_cases h3 : n = 3
        · subst h3; simpa using c3
        · have : ¬ n < 4 := by omega
          simp [h0, h1, h2, h3, this]

theorem irq_encoder_frame (s : State) (irq state : Nat) :
    (irq_encoder s irq state).m_bankreg = s.m_bankreg
      ∧ (irq_encoder s irq state).m_haltreg = s.m_haltreg
      ∧ (irq_encoder s irq state).bank = s.bank := ⟨rfl, rfl, rfl⟩

/-- Claim C17: `irq_encoder(irq, state)` sets (ASSERT) or clears (otherwise)
bit `irq` of the pending mask and nothing else, then drives CPU lines 3..0 with
the binary code of the highest-numbered pending IRQ in 1..15, all clear when
none is pending; the documented sources give 11 -> 1011, 9 -> 1001, 8 -> 1000,
5 -> 0101, 3 -> 0011, 2 -> 0010 (line asserted = 1); and a lower-numbered IRQ
changing while a higher-numbered one is pending does not change the lines. -/
theorem C17_irq_encoder (s : State) (irq state h : Nat) (hirq : irq < 16)
    (hm : s.m_irqs < 65536)
    (hh : highest_pending 15 (irq_encoder s irq state).m_irqs h) :
    (∀ k, (irq_encoder s irq state).m_irqs.testBit k =
        if k = irq then decide (state = ASSERT_LINE) else s.m_irqs.testBit k)
      ∧ ((irq_encoder s irq state).m_bankreg = s.m_bankreg
          ∧ (irq_encoder s irq state).m_haltreg = s.m_haltreg
          ∧ (irq_encoder s irq state).bank = s.bank)
      ∧ (∀ n, n < 4 → (irq_encoder s irq state).line n =
          if h.testBit n then ASSERT_LINE else CLEAR_LINE)
      ∧ (h = 0 → ∀ n, n < 4 → (irq_encoder s irq state).line n = CLEAR_LINE)
      ∧ (∀ n, 4 ≤ n → (irq_encoder s irq state).line n = s.line n)
      ∧ (lines_after_assert 11 = [1, 0, 1, 1] ∧ lines_after_assert 9 = [1, 0, 0, 1]
          ∧ lines_after_assert 8 = [1, 0, 0, 0] ∧ lines_after_assert 5 = [0, 1, 0, 1]
          ∧ lines_after_assert 3 = [0, 0, 1, 1] ∧ lines_after_assert 2 = [0, 0, 1, 0])
      ∧ (∀ j st, j < h →
          (irq_encoder (irq_encoder s irq state) j st).line = (irq_encoder s irq state).line)
      ∧ highest_pending 15 (irq_encoder s irq state).m_irqs
          (irq_scan (irq_encoder s irq state).m_irqs 15) := by
  have hscan : irq_scan (irq_encoder s irq state).m_irqs 15 = h :=
    highest_pending_unique 15 _ _ _ (irq_scan_spec _ 15) hh
  have hline : ∀ n, n < 4 → (irq_encoder s irq state).line n =
      if h.testBit n then ASSERT_LINE else CLEAR_LINE := fun n hn => by
    rw [irq_encoder_line, if_pos hn, hscan]
  refine ⟨fun k => ?_, irq_encoder_frame s irq state, hline, fun h0 n hn => ?_, fun n hn => ?_,
    by decide, fun j st hj => ?_, irq_scan_spec _ 15⟩
  · by_cases hk : k < 16
    · exact irq_encoder_testBit s irq state k hk
    · have big : ∀ x, x < 65536 → x.testBit k = false := fun x hx =>
        Nat.testBit_lt_two_pow (lt_of_lt_of_le hx (by
          have : 2 ^ 16 ≤ 2 ^ k := Nat.pow_le_pow_right (by norm_num) (by omega)
          simpa using this))
      rw [big _ (irq_encoder_lt s irq state hm), if_neg (by omega), big _ hm]
  · rw [hline n hn, h0]
    simp
  · rw [irq_encoder_line, if_neg (by omega)]
  · have hj16 : j < 16 := by
      rcases hh with ⟨h0, _⟩ | ⟨_, h2, _, _⟩ <;> omega
    have hh2 : highest_pending 15 (irq_encoder (irq_encoder s irq state) j st).m_irqs h := by
      rcases hh with ⟨h0, _⟩ | ⟨h1, h2, h3, h4⟩
      · omega
      · right
        refine ⟨h1, h2, ?_, fun i hi1 hi2 => ?_⟩
        · rw [irq_encoder_testBit _ _ _ _ (by omega), if_neg (by omega)]
          exact h3
        · rw [irq_encoder_testBit _ _ _ _ (by omega), if_neg (by omega)]
          exact h4 i hi1 hi2
    have hscan2 := highest_pending_unique 15 _ _ _ (irq_scan_spec _ 15) hh2
    funext n
    rw [irq_encoder_line, irq_encoder_line s irq state n, hscan2, hscan]
    by_cases hn : n < 4
    · simp only [hn, if_true]
    · simp only [hn, if_false]

/-- Witness for C17: asserting IRQ 5 while IRQ 11 is pending keeps the lines on
the code of 11. -/
theorem C17_irq_encoder_witness :
    (irq_encoder (irq_encoder init_state 11 ASSERT_LINE) 5 ASSERT_LINE).line
      = (irq_encoder init_state 11 ASSERT_LINE).line :=
  (C17_irq_encoder init_state 11 ASSERT_LINE 11 (by decide) (by decide)
    (Or.inr ⟨by decide, by decide, by decide, fun i h1 h2 => by
      interval_cases i <;> decide⟩)).2.2.2.2.2.2.1 5 ASSERT_LINE (by decide)

theorem resolve_page (d N M : Nat) (hN : N < 7) (hM : M < 7) :
    resolve d N % 8192 = 0 ∧ resolve d N ≤ 122880
      ∧ (N ≠ M → resolve d N / 8192 ≠ resolve d M / 8192) := by
  have bN := BIT_le_one d N
  have bM := BIT_le_one d M
  unfold resolve per_bit_base
  split_ifs <;> omega

/-- Claim C22: for every written value each of the seven windows is backed by
an 8 KB-aligned RAM offset of at most 122880, so the page ends inside the
128 KB RAM, and two different windows are never backed by the same 8 KB page,
with or without the video-RAM overlay. -/
theorem C22_bank_w_pages (s : State) (d m N M : Nat) (hd : d < 65536) (hN : N < 7)
    (hM : M < 7) :
    (ms0515_bank_w s d m).bank N % 8192 = 0
      ∧ (ms0515_bank_w s d m).bank N ≤ 122880
      ∧ (ms0515_bank_w s d m).bank N + 8192 ≤ 128 * 1024
      ∧ (N ≠ M → (ms0515_bank_w s d m).bank N / 8192 ≠ (ms0515_bank_w s d m).bank M / 8192) := by
  have _ := hd
  rw [bank_w_resolve s d m N hN, bank_w_resolve s d m M hM]
  obtain ⟨h1, h2, h3⟩ := resolve_page d N M hN hM
  exact ⟨h1, h2, by omega, h3⟩

/-- Witness for C22: with `0x0CFF` written (overlay on windows 4 and 5, every
selector bit set) windows 4 and 6 sit on different pages. -/
theorem C22_bank_w_pages_witness :
    (ms0515_bank_w init_state 0x0CFF 0xffff).bank 4 / 8192
      ≠ (ms0515_bank_w init_state 0x0CFF 0xffff).bank 6 / 8192 :=
  (C22_bank_w_pages init_state 0x0CFF 0xffff 4 6 (by decide) (by decide) (by decide)).2.2.2
    (by decide)

end MS0515

namespace PC9801

theorem a0_w_256_eq (E : Ext) (s : State) (offset data : Nat)
    (h256 : s.m_ex_video_ff E.ANALOG_256_MODE ≠ 0)
    (ho : offset = 0x08 ∨ offset = 0x0a ∨ offset = 0x0c ∨ offset = 0x0e) :
    pc9821_a0_w E s offset data =
      (let p := s.m_analog256
       let p :=
         match offset with
         | 0x08 => { p with pal_entry := data &&& 0xff }
         | 0x0a => { p with g := store p.g p.pal_entry (data &&& 0xff) }
         | 0x0c => { p with r := store p.r p.pal_entry (data &&& 0xff) }
         | 0x0e => { p with b := store p.b p.pal_entry (data &&& 0xff) }
         | _ => p
       set_pen_color { s with m_analog256 := p } (p.pal_entry + 0x20) (p.r p.pal_entry)
         (p.g p.pal_entry) (p.b p.pal_entry)) := by
  unfold pc9821_a0_w
  rcases ho with h | h | h | h <;> subst h <;> simp [h256]

theorem and_255 (data : Nat) (hd : data < 256) : data &&& 0xff = data := by
  have h := Nat.and_pow_two_sub_one_eq_mod data 8
  simp only [Nat.reducePow, Nat.add_one_sub_one] at h
  rw [h, Nat.mod_eq_of_lt hd]

/-- Claim C9: with the 256-colour flag set, whatever the 16-colour flag, a
write at offset 0x08, 0x0a, 0x0c or 0x0e updates the 256-colour registers only
(entry index, then green, red, blue of the selected entry), leaves the
16-colour registers, the flags, the other registers and the pens below 0x20
unchanged, does not depend on the base handlers, and the read at those
offsets returns 0. -/
theorem C9_a0_256_priority (E F : Ext) (s : State) (offset data : Nat) (hd : data < 256)
    (h256 : s.m_ex_video_ff E.ANALOG_256_MODE ≠ 0)
    (ho : offset = 0x08 ∨ offset = 0x0a ∨ offset = 0x0c ∨ offset = 0x0e) :
    (pc9821_a0_w E s 0x08 data).m_analog256 = { s.m_analog256 with pal_entry := data }
      ∧ (pc9821_a0_w E s 0x0a data).m_analog256 =
          { s.m_analog256 with g := store s.m_analog256.g s.m_analog256.pal_entry data }
      ∧ (pc9821_a0_w E s 0x0c data).m_analog256 =
          { s.m_analog256 with r := store s.m_analog256.r s.m_analog256.pal_entry data }
      ∧ (pc9821_a0_w E s 0x0e data).m_analog256 =
          { s.m_analog256 with b := store s.m_analog256.b s.m_analog256.pal_entry data }
      ∧ (pc9821_a0_w E s offset data).m_analog16 = s.m_analog16
      ∧ (pc9821_a0_w E s offset data).m_ex_video_ff = s.m_ex_video_ff
      ∧ (pc9821_a0_w E s offset data).m_access_ctrl = s.m_access_ctrl
      ∧ (pc9821_a0_w E s offset data).m_vram_bank = s.m_vram_bank
      ∧ (∀ k, k < 0x20 → (pc9821_a0_w E s offset data).pens k = s.pens k)
      ∧ (F.ANALOG_256_MODE = E.ANALOG_256_MODE →
          pc9821_a0_w F s offset data = pc9821_a0_w E s offset data)
      ∧ pc9821_a0_r E s offset = 0 := by
  have hm := and_255 data hd
  refine ⟨?_, ?_, ?_, ?_, ?_, ?_, ?_, ?_, ?_, ?_, ?_⟩
  · rw [a0_w_256_eq E s _ data h256 (Or.inl rfl)]; simp [set_pen_color, hm]
  · rw [a0_w_256_eq E s _ data h256 (Or.inr (Or.inl rfl))]; simp [set_pen_color, hm]
  · rw [a0_w_256_eq E s _ data h256 (Or.inr (Or.inr (Or.inl rfl)))]; simp [set_pen_color, hm]
  · rw [a0_w_256_eq E s _ data h256 (Or.inr (Or.inr (Or.inr rfl)))]; simp [set_pen_color, hm]
  · rw [a0_w_256_eq E s _ data h256 ho]; rfl
  · rw [a0_w_256_eq E s _ data h256 ho]; rfl
  · rw [a0_w_256_eq E s _ data h256 ho]; rfl
  · rw [a0_w_256_eq E s _ data h256 ho]; rfl
  · intro k hk
    rw [a0_w_256_eq E s _ data h256 ho]
    simp only [set_pen_color]
    rw [if_neg (by omega)]
  · intro hF
    rw [a0_w_256_eq E s _ data h256 ho, a0_w_256_eq F s _ data (by rw [hF]; exact h256) ho]
  · unfold pc9821_a0_r
    rcases ho with h | h | h | h <;> subst h <;> simp [h256]

/-- Witness for C9: with the 256-colour flag set, writing `0x7B` at offset 0x08
selects entry `0x7B` and the read at offset 0x08 returns 0. -/
theorem C9_a0_256_priority_witness :
    (pc9821_a0_w sample_ext state_256 0x08 0x7B).m_analog256.pal_entry = 0x7B
      ∧ pc9821_a0_r sample_ext state_256 0x08 = 0 :=
  let h := C9_a0_256_priority sample_ext sample_ext state_256 0x08 0x7B (by decide)
    (by decide) (Or.inl rfl)
  ⟨congrArg Analog256.pal_entry h.1, h.2.2.2.2.2.2.2.2.2.2⟩

/-- Claim C10: a byte written to the access-control register at offset 1 is
read back at offset 1, and a write at any other offset leaves the value read
at offset 1 unchanged. -/
theorem C10_access_ctrl_round_trip (s : State) (v offset data : Nat) (hv : v < 256)
    (ho : offset ≠ 1) :
    access_ctrl_r (access_ctrl_w s 1 v) 1 = v
      ∧ access_ctrl_r (access_ctrl_w s offset data) 1 = access_ctrl_r s 1 := by
  refine ⟨?_, ?_⟩
  · simp [access_ctrl_r, access_ctrl_w, Nat.mod_eq_of_lt hv]
  · simp [access_ctrl_w, ho]

/-- Witness for C10: `0xA5` written at offset 1 reads back; a write at offset 0
does not disturb it. -/
theorem C10_access_ctrl_round_trip_witness :
    access_ctrl_r (access_ctrl_w init_state 1 0xA5) 1 = 0xA5
      ∧ access_ctrl_r (access_ctrl_w init_state 0 0x3C) 1 = access_ctrl_r init_state 1 :=
  C10_access_ctrl_round_trip init_state 0xA5 0 0x3C (by decide) (by decide)

theorem bit6_eq (d : Nat) : (d &&& 0x40) >>> 6 = d / 64 % 2 := by
  apply Nat.eq_of_testBit_eq
  intro i
  have e : d / 64 % 2 = (d >>> 6) % 2 ^ 1 := by
    rw [Nat.shiftRight_eq_div_pow]; norm_num
  have f : (0x40 : Nat) = 2 ^ 6 := by norm_num
  rw [e, Nat.testBit_mod_two_pow, Nat.testBit_shiftRight, Nat.testBit_shiftRight,
    Nat.testBit_and, f, Nat.testBit_two_pow]
  by_cases hi : i = 0
  · subst hi; simp
  · have h1 : ¬ i < 1 := by omega
    have h2 : ¬ 6 = 6 + i := by omega
    simp [h1, h2]

theorem sdip_w_sdip (k : Nat) (s : State) (offset data : Nat) :
    (sdip_w k s offset data).m_sdip =
      if offset = 2 then store s.m_sdip (k + s.m_sdip_bank * 12) (data % 256)
      else s.m_sdip := by
  unfold sdip_w sdip_b_w sdip_n_w m_sdip_write
  by_cases hk : k = 11
  · subst hk
    by_cases h2 : offset = 2
    · subst h2; simp
    · by_cases h3 : offset = 3 <;> simp [h2, h3]
  · by_cases h2 : offset = 2 <;> simp [hk, h2]

theorem sdip_w_bank (k : Nat) (s : State) (offset data : Nat) :
    (sdip_w k s offset data).m_sdip_bank =
      if k = 11 ∧ offset = 3 then data / 64 % 2 else s.m_sdip_bank := by
  unfold sdip_w sdip_b_w sdip_n_w m_sdip_write
  by_cases hk : k = 11
  · subst hk
    by_cases h3 : offset = 3
    · subst h3; simp [bit6_eq]
    · by_cases h2 : offset = 2 <;> simp [h2, h3]
  · by_cases h2 : offset = 2 <;> simp [hk, h2]

theorem sdip_w_bank_le (k : Nat) (s : State) (offset data : Nat) (h : s.m_sdip_bank ≤ 1) :
    (sdip_w k s offset data).m_sdip_bank ≤ 1 := by
  rw [sdip_w_bank]
  split
  · omega
  · exact h

/-- A sequence of writes that avoids slot `k` of bank `b` leaves that byte of
the SDIP array as it was. -/
theorem sdip_run_frame (k b : Nat) (hk : k < 12) :
    ∀ (ws : List SdipWrite) (s : State), s.m_sdip_bank ≤ 1 → (∀ w ∈ ws, w.slot < 12) →
      sdip_avoids k b s ws = true →
      (sdip_run s ws).m_sdip (k + b * 12) = s.m_sdip (k + b * 12) := by
  intro ws
  induction ws with
  | nil => intro s _ _ _; rfl
  | cons w ws ih =>
    intro s hs hw hav
    simp only [sdip_avoids, Bool.and_eq_true, Bool.not_eq_true', Bool.and_eq_false_imp,
      decide_eq_true_eq, decide_eq_false_iff_not] at hav
    have hslot := hw w (List.mem_cons_self _ _)
    have hrest : ∀ x ∈ ws, x.slot < 12 := fun x hx => hw x (List.mem_cons_of_mem _ hx)
    simp only [sdip_run]
    rw [ih _ (sdip_w_bank_le _ _ _ _ hs) hrest hav.2, sdip_w_sdip]
    split
    · next h2 =>
      have hne : ¬ (k + b * 12 = w.slot + s.m_sdip_bank * 12) := by
        intro he
        have h1 : w.slot = k := by omega
        have h3 : s.m_sdip_bank = b := by omega
        exact hav.1 ⟨h1, h2⟩ h3
      simp [store, hne]
    · rfl

/-- Claim C11: a byte `v` written to slot `k` (0..11) at port offset 2 while
bank `b` (0 or 1) is selected is returned by every later read of slot `k` at
port offset 2 made with bank `b` selected, as long as no write has stored into
that slot of that bank in between; the write changes the value read for no
other (slot, bank) pair; and the selected bank changes only through `sdip_b_w`
at offset 3, where it becomes bit 6 of the data. -/
theorem C11_sdip_round_trip (s : State) (k b v : Nat) (ws : List SdipWrite) (hk : k < 12)
    (hb : b ≤ 1) (hv : v < 256) (hs : s.m_sdip_bank = b) (hws : ∀ w ∈ ws, w.slot < 12)
    (hav : sdip_avoids k b (sdip_w k s 2 v) ws = true) :
    ((sdip_run (sdip_w k s 2 v) ws).m_sdip_bank = b →
        sdip_r k (sdip_run (sdip_w k s 2 v) ws) 2 = v)
      ∧ (∀ j c, j < 12 → c ≤ 1 → (j, c) ≠ (k, b) →
          sdip_r j { sdip_w k s 2 v with m_sdip_bank := c } 2
            = sdip_r j { s with m_sdip_bank := c } 2)
      ∧ (∀ j offset d, j < 12 → (j ≠ 11 ∨ offset ≠ 3) →
          (sdip_w j s offset d).m_sdip_bank = s.m_sdip_bank)
      ∧ (∀ d, (sdip_w 11 s 3 d).m_sdip_bank = d / 64 % 2
          ∧ (sdip_w 11 s 3 d).m_sdip = s.m_sdip) := by
  have hb1 : (sdip_w k s 2 v).m_sdip_bank ≤ 1 := sdip_w_bank_le _ _ _ _ (by omega)
  refine ⟨fun hsel => ?_, fun j c hj hc hne => ?_, fun j offset d _ hjo => ?_, fun d => ?_⟩
  · unfold sdip_r m_sdip_read
    rw [if_pos rfl, hsel, sdip_run_frame k b hk ws _ hb1 hws hav, sdip_w_sdip, if_pos rfl, hs]
    simp [store, Nat.mod_eq_of_lt hv]
  · unfold sdip_r m_sdip_read
    simp only [if_true, sdip_w_sdip, hs]
    have hidx : ¬ (j + c * 12 = k + b * 12) := by
      intro he
      apply hne
      have h1 : j = k := by omega
      have h2 : c = b := by omega
      rw [h1, h2]
    simp [store, hidx]
  · rw [sdip_w_bank]
    have : ¬ (j = 11 ∧ offset = 3) := by
      rintro ⟨h1, h2⟩
      rcases hjo with h | h
      · exact h h1
      · exact h h2
    simp [this]
  · refine ⟨?_, ?_⟩
    · rw [sdip_w_bank]; simp
    · rw [sdip_w_sdip]; simp

/-- Witness for C11: `0x5A` written to slot 3 of bank 0, then bank 1 selected,
slot 3 of bank 1 written, bank 0 selected again; slot 3 still reads `0x5A`. -/
theorem C11_sdip_round_trip_witness :
    sdip_r 3
        (sdip_run (sdip_w 3 init_state 2 0x5A)
          [⟨11, 3, 0x40⟩, ⟨3, 2, 0x77⟩, ⟨11, 3, 0x00⟩]) 2 = 0x5A :=
  (C11_sdip_round_trip init_state 3 0 0x5A [⟨11, 3, 0x40⟩, ⟨3, 2, 0x77⟩, ⟨11, 3, 0x00⟩]
    (by decide) (by decide) (by decide) rfl (by decide) (by decide)).1 (by decide)

/-- Claim C12: in every state `grcg_r` at offsets 6 and 7, `access_ctrl_r` and
`window_bank_r` at any offset other than 1, `midi_r`, `unk_r` and `m_sdip_read`
at any port other than 2 return `0xFF`, and `fdc_2hd_ctrl_r` returns `0x44`;
the value does not depend on the state, so repeated reads return the same
sentinel. -/
theorem C12_sentinel_reads (T : State → Nat → Nat) (s : State) (offset port slot : Nat)
    (ho : offset ≠ 1) (hp : port ≠ 2) :
    grcg_r T s 6 = 0xff ∧ grcg_r T s 7 = 0xff
      ∧ access_ctrl_r s offset = 0xff
      ∧ window_bank_r s offset = 0xff
      ∧ (∀ o, midi_r s o = 0xff)
      ∧ (∀ o, unk_r s o = 0xff)
      ∧ m_sdip_read s port slot = 0xff
      ∧ (∀ o, fdc_2hd_ctrl_r s o = 0x44) := by
  refine ⟨rfl, rfl, ?_, ?_, fun _ => rfl, fun _ => rfl, ?_, fun _ => rfl⟩
  · simp [access_ctrl_r, ho]
  · simp [window_bank_r, ho]
  · simp [m_sdip_read, hp]

/-- Witness for C12: on the state with the 256-colour flag set, the window-bank
read at offset 0 and the SDIP read at port 3 return `0xFF`. -/
theorem C12_sentinel_reads_witness :
    window_bank_r state_256 0 = 0xff ∧ m_sdip_read state_256 3 5 = 0xff :=
  let h := C12_sentinel_reads (fun _ _ => 0) state_256 0 3 5 (by decide) (by decide)
  ⟨h.2.2.2.1, h.2.2.2.2.2.2.1⟩

theorem a20_ctrl_w_line (P : Ppi) (s : State) (offset data : Nat) :
    (a20_ctrl_w P s offset data).a20_line = (a20_ctrl_w P s offset data).m_gate_a20 := by
  unfold a20_ctrl_w
  rfl

theorem a20_ctrl_w_gate (P : Ppi) (s : State) (offset data : Nat) :
    (a20_ctrl_w P s offset data).m_gate_a20 =
      if offset = 0 then 0
      else if offset = 1 then 1
      else if offset = 3 then (if data = 2 then 1 else if data = 3 then 0 else s.m_gate_a20)
      else s.m_gate_a20 := by
  unfold a20_ctrl_w
  by_cases h0 : offset = 0
  · subst h0; simp
  · by_cases h1 : offset = 1
    · subst h1; simp
    · by_cases h3 : offset = 3
      · subst h3
        by_cases d2 : data = 2
        · subst d2; simp
        · by_cases d3 : data = 3
          · subst d3; simp
          · simp [d2, d3]
      · simp [h0, h1, h3]

/-- Claim C13: `a20_ctrl_w` sets the gate to 0 at offset 0, to 1 at offset 1,
at offset 3 to 1 for data `0x02`, to 0 for data `0x03` and not at all for other
data, and leaves it alone at any other offset; after every write the A20 input
line carries the resulting gate value, and `a20_ctrl_r` at offset 1 then returns
`0xFE` for gate 1 and `0xFF` for gate 0. -/
theorem C13_a20_gate (P : Ppi) (amd98 : Bool) (s : State) (offset data : Nat) :
    (a20_ctrl_w P s 0 data).m_gate_a20 = 0
      ∧ (a20_ctrl_w P s 1 data).m_gate_a20 = 1
      ∧ (a20_ctrl_w P s 3 0x02).m_gate_a20 = 1
      ∧ (a20_ctrl_w P s 3 0x03).m_gate_a20 = 0
      ∧ (data ≠ 0x02 → data ≠ 0x03 → (a20_ctrl_w P s 3 data).m_gate_a20 = s.m_gate_a20)
      ∧ (offset ≠ 0 → offset ≠ 1 → offset ≠ 3 →
          (a20_ctrl_w P s offset data).m_gate_a20 = s.m_gate_a20)
      ∧ (a20_ctrl_w P s offset data).a20_line = (a20_ctrl_w P s offset data).m_gate_a20
      ∧ ((a20_ctrl_w P s offset data).m_gate_a20 = 1 →
          a20_ctrl_r amd98 (a20_ctrl_w P s offset data) 1 = 0xFE)
      ∧ ((a20_ctrl_w P s offset data).m_gate_a20 = 0 →
          a20_ctrl_r amd98 (a20_ctrl_w P s offset data) 1 = 0xFF) := by
  refine ⟨?_, ?_, ?_, ?_, fun d2 d3 => ?_, fun h0 h1 h3 => ?_, a20_ctrl_w_line P s offset data,
    fun h => ?_, fun h => ?_⟩
  · rw [a20_ctrl_w_gate]; simp
  · rw [a20_ctrl_w_gate]; simp
  · rw [a20_ctrl_w_gate]; simp
  · rw [a20_ctrl_w_gate]; simp
  · rw [a20_ctrl_w_gate]; simp [d2, d3]
  · rw [a20_ctrl_w_gate]; simp [h0, h1, h3]
  · simp [a20_ctrl_r, h]
  · simp [a20_ctrl_r, h]

/-- Witness for C13: data `0x02` at offset 3 opens the gate and the read at
offset 1 returns `0xFE`. -/
theorem C13_a20_gate_witness :
    (a20_ctrl_w sample_ppi init_state 3 0x02).m_gate_a20 = 1
      ∧ a20_ctrl_r false (a20_ctrl_w sample_ppi init_state 3 0x02) 1 = 0xFE :=
  let h := C13_a20_gate sample_ppi false init_state 3 0x02
  ⟨h.2.2.1, h.2.2.2.2.2.2.2.1 h.2.2.1⟩

theorem egc_w_arm (s : State) (offset data mask : Nat) (hflag : s.m_ex_video_ff 2 ≠ 0)
    (ho : offset = 6 ∨ offset = 7) :
    (egc_w s offset data mask).m_egc =
      { s.m_egc with
        regs := store s.m_egc.regs offset (MS0515.COMBINE_DATA (s.m_egc.regs offset) data mask),
        count := (store s.m_egc.regs offset
            (MS0515.COMBINE_DATA (s.m_egc.regs offset) data mask) 7 &&& 0xfff) + 1,
        first := true, init := false } := by
  unfold egc_w
  rcases ho with h | h <;> subst h <;> simp [hflag]

theorem egc_w_low (s : State) (offset data mask : Nat) (ho : offset < 6) :
    (egc_w s offset data mask).m_egc.count = s.m_egc.count
      ∧ (egc_w s offset data mask).m_egc.first = s.m_egc.first
      ∧ (egc_w s offset data mask).m_egc.init = s.m_egc.init := by
  unfold egc_w
  by_cases hflag : s.m_ex_video_ff 2 = 0
  · simp [hflag]
  · simp only [hflag, if_false]
    interval_cases offset
    · simp
    · simp only [ne_eq, Nat.reduceEqDiff, not_false_eq_true, or_true, if_true]
      split <;> exact ⟨rfl, rfl, rfl⟩
    · simp
    · simp only [ne_eq, Nat.reduceEqDiff, not_false_eq_true, or_true, if_true]
      split <;> exact ⟨rfl, rfl, rfl⟩
    · by_cases h : s.m_egc.regs 1 &&& 0x6000 = 0 <;> simp [h]
    · simp only [ne_eq, Nat.reduceEqDiff, not_false_eq_true, or_true, if_true]
      split <;> exact ⟨rfl, rfl, rfl⟩

theorem and_fff_le (x : Nat) : x &&& 0xfff ≤ 4095 := Nat.and_le_right

/-- Claim C14: with extended video flag 2 set, a write to EGC register offset
6 or 7 sets `count` to `(regs[7] AND 0xFFF) + 1`, read from `regs[7]` after the
masked store, so that `1 <= count <= 4096`, sets `first` and clears `init`;
a write to offsets 0..5 leaves `count`, `first` and `init` as they were. -/
theorem C14_egc_count_trigger (s : State) (offset data mask : Nat)
    (hflag : s.m_ex_video_ff 2 ≠ 0) :
    (offset = 6 ∨ offset = 7 →
        (egc_w s offset data mask).m_egc.count
            = ((egc_w s offset data mask).m_egc.regs 7 &&& 0xfff) + 1
          ∧ (egc_w s offset data mask).m_egc.regs 7
            = (if offset = 7 then MS0515.COMBINE_DATA (s.m_egc.regs 7) data mask
               else s.m_egc.regs 7)
          ∧ 1 ≤ (egc_w s offset data mask).m_egc.count
          ∧ (egc_w s offset data mask).m_egc.count ≤ 4096
          ∧ (egc_w s offset data mask).m_egc.first = true
          ∧ (egc_w s offset data mask).m_egc.init = false)
      ∧ (offset < 6 →
          (egc_w s offset data mask).m_egc.count = s.m_egc.count
            ∧ (egc_w s offset data mask).m_egc.first = s.m_egc.first
            ∧ (egc_w s offset data mask).m_egc.init = s.m_egc.init) := by
  refine ⟨fun ho => ?_, fun ho => egc_w_low s offset data mask ho⟩
  rw [egc_w_arm s offset data mask hflag ho]
  refine ⟨rfl, ?_, ?_, ?_, rfl, rfl⟩
  · rcases ho with h | h <;> subst h <;> simp [store]
  · simp
  · have := and_fff_le (store s.m_egc.regs offset
      (MS0515.COMBINE_DATA (s.m_egc.regs offset) data mask) 7)
    simp only []
    omega

/-- Witness for C14: with flag 2 set and all registers zero, writing `0x1234`
to offset 7 under the full mask arms the count `0x235`. -/
theorem C14_egc_count_trigger_witness :
    (egc_w { init_state with m_ex_video_ff := fun k => if k = 2 then 1 else 0 }
        7 0x1234 0xffff).m_egc.count = 0x235 :=
  ((C14_egc_count_trigger { init_state with m_ex_video_ff := fun k => if k = 2 then 1 else 0 }
    7 0x1234 0xffff (by decide)).1 (Or.inr rfl)).1.trans (by decide)

theorem reset_tvram (s : State) :
    (machine_reset_pc9801_common s).m_tvram =
      memsw_loop (fun k => if k < 0x2000 then 0 else s.m_tvram k)
        [0, 1, 2, 3, 4, 5, 6, 7, 8, 9, 10, 11, 12, 13, 14, 15] := rfl

/-- Claim C15: after the common reset the text VRAM is zero in words
`0..0x1FEF`, words `0x1FF0 + i` for `i` in 0..15 hold the default memory-switch
bytes `E1 48 E1 05 E1 04 E1 00 E1 01 E1 00 E1 00 E1 6E`, every index the loop
writes is below `0x2000`, and nothing beyond the buffer is touched. -/
theorem C15_reset_memsw (s : State) :
    (∀ k, k < 0x1FF0 → (machine_reset_pc9801_common s).m_tvram k = 0)
      ∧ (List.range 16).map (fun i => (machine_reset_pc9801_common s).m_tvram (0x1FF0 + i))
          = [0xE1, 0x48, 0xE1, 0x05, 0xE1, 0x04, 0xE1, 0x00, 0xE1, 0x01, 0xE1, 0x00, 0xE1, 0x00,
             0xE1, 0x6E]
      ∧ (∀ i, i < 16 → (0x3FE0 + 2 * i) / 2 = 0x1FF0 + i ∧ (0x3fe0 >>> 1) + i < 0x2000)
      ∧ (∀ k, 0x2000 ≤ k → (machine_reset_pc9801_common s).m_tvram k = s.m_tvram k) := by
  refine ⟨fun k hk => ?_, ?_, fun i hi => ?_, fun k hk => ?_⟩
  · rw [reset_tvram]
    simp only [memsw_loop, store, Nat.reduceShiftRight, Nat.reduceAdd]
    repeat rw [if_neg (by omega)]
    rw [if_pos (by omega)]
  · rw [reset_tvram]
    simp [memsw_loop, store, default_memsw_data, List.range, List.range.loop]
  · have : (0x3fe0 : Nat) >>> 1 = 0x1FF0 := by decide
    omega
  · rw [reset_tvram]
    simp only [memsw_loop, store, Nat.reduceShiftRight, Nat.reduceAdd]
    repeat rw [if_neg (by omega)]

/-- Witness for C15: word 5 is cleared and word `0x1FF1` holds `0x48`, starting
from a text VRAM full of `0x20`. -/
theorem C15_reset_memsw_witness :
    (machine_reset_pc9801_common { init_state with m_tvram := fun _ => 0x20 }).m_tvram 5 = 0
      ∧ (0x3fe0 >>> 1) + 1 < 0x2000 :=
  let h := C15_reset_memsw { init_state with m_tvram := fun _ => 0x20 }
  ⟨h.1 5 (by decide), (h.2.2.1 1 (by decide)).2⟩

set_option maxRecDepth 100000 in
theorem ff_index_two : ∀ d, d < 256 → ((d &&& 0xfe = 4 ↔ d = 4 ∨ d = 5)
    ∧ ((d &&& 0xfe) >>> 1 = 2 ↔ d = 4 ∨ d = 5)) := by
  decide

theorem low_nibble : ∀ d, d < 16 → d &&& 0xf0 = 0 := by
  decide

theorem store_store (a : Nat → Nat) (i v : Nat) : store (store a i v) i v = store a i v := by
  funext k
  simp only [store]
  split <;> rfl

/-- Claim C20: on the PC-9821 handler at offset 1, data `0x04` / `0x05` written
while extended flag 3 is clear changes no extended flag; flag 2 changes only
when `0x04` / `0x05` is written while flag 3 is set, and then becomes
`data AND 1`; the older handler sets flag 2 to `data AND 1` for that data
whatever flag 3 is; for every other data below 16 the two handlers leave the
same flags; at offsets other than 1 both handlers are the base handler. -/
theorem C20_video_ff_guard (base : State → Nat → Nat → State) (s : State) (offset data : Nat)
    (hd : data < 256) :
    ((data = 4 ∨ data = 5) → s.m_ex_video_ff 3 = 0 →
        pc9821_video_ff_w base s 1 data = s)
      ∧ ((pc9821_video_ff_w base s 1 data).m_ex_video_ff 2 ≠ s.m_ex_video_ff 2 →
          (data = 4 ∨ data = 5) ∧ s.m_ex_video_ff 3 ≠ 0)
      ∧ ((data = 4 ∨ data = 5) → s.m_ex_video_ff 3 ≠ 0 →
          (pc9821_video_ff_w base s 1 data).m_ex_video_ff 2 = data &&& 1)
      ∧ ((data = 4 ∨ data = 5) →
          (pc9801rs_video_ff_w base s 1 data).m_ex_video_ff 2 = data &&& 1)
      ∧ (data < 16 → data ≠ 4 → data ≠ 5 →
          pc9821_video_ff_w base s 1 data = pc9801rs_video_ff_w base s 1 data)
      ∧ (offset ≠ 1 →
          pc9821_video_ff_w base s offset data = base s offset data
            ∧ pc9801rs_video_ff_w base s offset data = base s offset data) := by
  obtain ⟨k1, k2⟩ := ff_index_two data hd
  refine ⟨fun h45 h3 => ?_, fun hch => ?_, fun h45 h3 => ?_, fun h45 => ?_,
    fun h16 n4 n5 => ?_, fun ho => ?_⟩
  · unfold pc9821_video_ff_w
    simp [k1.2 h45, h3]
  · by_cases h45 : data = 4 ∨ data = 5
    · refine ⟨h45, fun h3 => hch ?_⟩
      unfold pc9821_video_ff_w
      simp [k1.2 h45, h3]
    · exfalso
      apply hch
      have i2 : ¬ ((data &&& 0xfe) >>> 1 = 2) := fun h => h45 (k2.1 h)
      have i1 : ¬ (data &&& 0xfe = 4) := fun h => h45 (k1.1 h)
      have i2b : ¬ (2 = (data &&& 254) >>> 1) := fun h => i2 h.symm
      unfold pc9821_video_ff_w pc9801rs_video_ff_w
      simp only [if_true, i1, false_and, if_false]
      split <;> simp [store, i2b]
  · have i2 : (data &&& 0xfe) >>> 1 = 2 := k2.2 h45
    have n0 : data &&& 0xf0 = 0 := by rcases h45 with h | h <;> subst h <;> decide
    unfold pc9821_video_ff_w pc9801rs_video_ff_w
    simp [h3, n0, store, i2]
  · have i2 : (data &&& 0xfe) >>> 1 = 2 := k2.2 h45
    have n0 : data &&& 0xf0 = 0 := by rcases h45 with h | h <;> subst h <;> decide
    unfold pc9801rs_video_ff_w
    simp [n0, store, i2]
  · have i1 : ¬ (data &&& 0xfe = 4) := fun h => by
      rcases k1.1 h with h | h
      · exact n4 h
      · exact n5 h
    have n0 : data &&& 0xf0 = 0 := low_nibble data h16
    unfold pc9821_video_ff_w pc9801rs_video_ff_w
    simp only [if_true, i1, false_and, if_false, n0, store_store]
  · unfold pc9821_video_ff_w pc9801rs_video_ff_w
    simp [ho]

/-- Witness for C20: with all flags clear, `0x05` at offset 1 is dropped by the
PC-9821 handler and sets flag 2 on the older handler. -/
theorem C20_video_ff_guard_witness :
    pc9821_video_ff_w sample_video_ff_w init_state 1 0x05 = init_state
      ∧ (pc9801rs_video_ff_w sample_video_ff_w init_state 1 0x05).m_ex_video_ff 2 = 1 :=
  let h := C20_video_ff_guard sample_video_ff_w init_state 1 0x05 (by decide)
  ⟨h.1 (Or.inr rfl) rfl, (h.2.2.2.1 (Or.inr rfl)).trans (by decide)⟩

theorem egc_w_disabled (s : State) (offset data mask : Nat) (h : s.m_ex_video_ff 2 = 0) :
    egc_w s offset data mask = s := by
  unfold egc_w
  simp [h]

theorem egc_w_regs (s : State) (offset data mask : Nat) (hflag : s.m_ex_video_ff 2 ≠ 0)
    (ho : s.m_egc.regs 1 &&& 0x6000 = 0 ∨ offset ≠ 4) :
    (egc_w s offset data mask).m_egc.regs =
      store s.m_egc.regs offset (MS0515.COMBINE_DATA (s.m_egc.regs offset) data mask) := by
  unfold egc_w
  simp only [hflag, if_false, ho, if_true]
  split
  · split <;> rfl
  · split <;> rfl
  · split <;> rfl
  · rfl
  · rfl
  · rfl

theorem video_ff_w_07 (base : State → Nat → Nat → State) (s : State) :
    pc9821_video_ff_w base s 1 0x07 =
      { s with m_ex_video_ff := store (store s.m_ex_video_ff 3 1) 3 1 } := by
  have a1 : (7 : Nat) &&& 254 = 6 := by decide
  have a2 : (7 : Nat) &&& 240 = 0 := by decide
  have a3 : (7 : Nat) &&& 1 = 1 := by decide
  unfold pc9821_video_ff_w pc9801rs_video_ff_w
  simp [a1, a2, a3]

theorem video_ff_w_05 (base : State → Nat → Nat → State) (s : State)
    (h3 : s.m_ex_video_ff 3 ≠ 0) :
    pc9821_video_ff_w base s 1 0x05 =
      { s with m_ex_video_ff := store (store s.m_ex_video_ff 2 1) 2 1 } := by
  have a1 : (5 : Nat) &&& 254 = 4 := by decide
  have a2 : (5 : Nat) &&& 240 = 0 := by decide
  have a3 : (5 : Nat) &&& 1 = 1 := by decide
  unfold pc9821_video_ff_w pc9801rs_video_ff_w
  simp [a1, a2, a3, h3]

/-- Counterexample to C21 as stated: on the all-zero state, after `0x07` is
written to the flip-flop port, a write of `0x1234` to EGC register 0 is not
stored. -/
theorem C21_unlock_only_counterexample :
    ¬ ((egc_w (pc9821_video_ff_w sample_video_ff_w init_state 1 0x07) 0 0x1234 0xffff).m_egc.regs 0
        = 0x1234) := by
  decide

/-- Claim C21, amended: writing `0x07` at offset 1 sets extended flag 3 and
leaves flag 2 as it was, so with flag 2 clear a following `egc_w` write is
still discarded; after `0x07` and then `0x05` flag 2 is set, and a following
`egc_w` write is stored in the register file (for offset 4 provided bits 14..13
of register 1 are clear). -/
theorem C21_egc_enable_sequence (base : State → Nat → Nat → State) (s : State)
    (offset data mask : Nat)
    (ho : s.m_egc.regs 1 &&& 0x6000 = 0 ∨ offset ≠ 4) :
    (pc9821_video_ff_w base s 1 0x07).m_ex_video_ff 3 = 1
      ∧ (pc9821_video_ff_w base s 1 0x07).m_ex_video_ff 2 = s.m_ex_video_ff 2
      ∧ (s.m_ex_video_ff 2 = 0 →
          egc_w (pc9821_video_ff_w base s 1 0x07) offset data mask
            = pc9821_video_ff_w base s 1 0x07)
      ∧ (pc9821_video_ff_w base (pc9821_video_ff_w base s 1 0x07) 1 0x05).m_ex_video_ff 2 = 1
      ∧ (egc_w (pc9821_video_ff_w base (pc9821_video_ff_w base s 1 0x07) 1 0x05)
            offset data mask).m_egc.regs offset
          = MS0515.COMBINE_DATA (s.m_egc.regs offset) data mask := by
  have h7 := video_ff_w_07 base s
  have f3 : (pc9821_video_ff_w base s 1 0x07).m_ex_video_ff 3 = 1 := by
    rw [h7]; simp [store]
  have f2 : (pc9821_video_ff_w base s 1 0x07).m_ex_video_ff 2 = s.m_ex_video_ff 2 := by
    rw [h7]; simp [store]
  have h5 := video_ff_w_05 base (pc9821_video_ff_w base s 1 0x07) (by rw [f3]; decide)
  have g2 : (pc9821_video_ff_w base (pc9821_video_ff_w base s 1 0x07) 1 0x05).m_ex_video_ff 2
      = 1 := by
    rw [h5]; simp [store]
  have ge : (pc9821_video_ff_w base (pc9821_video_ff_w base s 1 0x07) 1 0x05).m_egc = s.m_egc := by
    rw [h5, h7]
  refine ⟨f3, f2, fun h => egc_w_disabled _ _ _ _ (by rw [f2]; exact h), g2, ?_⟩
  rw [egc_w_regs _ _ _ _ (by rw [g2]; decide) (by rw [ge]; exact ho), ge]
  simp [store]

/-- Witness for the amended C21: on the all-zero state `0x07` then `0x05`
enable the EGC and `0x1234` written to register 0 is stored. -/
theorem C21_egc_enable_sequence_witness :
    (egc_w (pc9821_video_ff_w sample_video_ff_w
        (pc9821_video_ff_w sample_video_ff_w init_state 1 0x07) 1 0x05)
      0 0x1234 0xffff).m_egc.regs 0 = 0x1234 :=
  (C21_egc_enable_sequence sample_video_ff_w init_state 0 0x1234 0xffff
    (Or.inl (by decide))).2.2.2.2.trans (by decide)

theorem bit1_eq (d : Nat) : (d &&& 2) >>> 1 = d / 2 % 2 := by
  apply Nat.eq_of_testBit_eq
  intro i
  have e : d / 2 % 2 = (d >>> 1) % 2 ^ 1 := by
    rw [Nat.shiftRight_eq_div_pow]; norm_num
  have t : Nat.testBit 2 (1 + i) = decide (1 = 1 + i) := by
    have := @Nat.testBit_two_pow 1 (1 + i)
    simpa using this
  rw [e, Nat.testBit_mod_two_pow, Nat.testBit_shiftRight, Nat.testBit_shiftRight,
    Nat.testBit_and, t]
  by_cases hi : i = 0
  · subst hi; simp
  · have h1 : ¬ i < 1 := by omega
    have h2 : ¬ 1 = 1 + i := by omega
    simp [h1, h2]

set_option maxRecDepth 100000 in
theorem ipl_setting : ∀ d, d < 256 →
    (((d &&& 0xf0 = 0x00 ∨ d &&& 0xf0 = 0x10) ∧ d &&& 0xed = 0x00)
      ↔ (d = 0x00 ∨ d = 0x02 ∨ d = 0x10 ∨ d = 0x12)) := by
  decide

theorem rs_bank_w_other (s : State) (offset data : Nat) (h1 : offset ≠ 1) (h3 : offset ≠ 3) :
    pc9801rs_bank_w s offset data = s := by
  unfold pc9801rs_bank_w
  simp [h1, h3]

theorem rs_bank_w_1 (s : State) (data : Nat) :
    pc9801rs_bank_w s 1 data =
      if (data &&& 0xf0 = 0x00 ∨ data &&& 0xf0 = 0x10) ∧ data &&& 0xed = 0x00 then
        { s with ipl_bank := data / 2 % 2 }
      else s := by
  unfold pc9801rs_bank_w
  rw [bit1_eq]
  by_cases a : data &&& 0xf0 = 0x00 ∨ data &&& 0xf0 = 0x10 <;>
    by_cases b : data &&& 0xed = 0x00 <;> simp [a, b]

theorem rs_bank_w_3 (s : State) (data : Nat) :
    pc9801rs_bank_w s 3 data =
      if data &&& 0xf0 = 0x20 then { s with m_vram_bank := data / 2 % 2 } else s := by
  unfold pc9801rs_bank_w
  rw [bit1_eq]
  simp

/-- Claim C23: at offset 1 the IPL ROM bank is written exactly for data `0x00`,
`0x02`, `0x10`, `0x12` and then becomes bit 1 of the data; at offset 3 the VRAM
bank is written exactly when `(data AND 0xF0) = 0x20` and then becomes bit 1 of
the data; every other write changes nothing, offset-1 writes leave the VRAM
bank and offset-3 writes the IPL bank, and a VRAM bank of 0 or 1 stays so. -/
theorem C23_rs_bank_w (s : State) (offset data : Nat) (hd : data < 256) :
    ((data = 0x00 ∨ data = 0x02 ∨ data = 0x10 ∨ data = 0x12) →
        pc9801rs_bank_w s 1 data = { s with ipl_bank := data / 2 % 2 })
      ∧ (¬ (data = 0x00 ∨ data = 0x02 ∨ data = 0x10 ∨ data = 0x12) →
          pc9801rs_bank_w s 1 data = s)
      ∧ (data &&& 0xF0 = 0x20 →
          pc9801rs_bank_w s 3 data = { s with m_vram_bank := data / 2 % 2 })
      ∧ (data &&& 0xF0 ≠ 0x20 → pc9801rs_bank_w s 3 data = s)
      ∧ (pc9801rs_bank_w s 1 data).m_vram_bank = s.m_vram_bank
      ∧ (pc9801rs_bank_w s 3 data).ipl_bank = s.ipl_bank
      ∧ (offset ≠ 1 → offset ≠ 3 → pc9801rs_bank_w s offset data = s)
      ∧ (s.m_vram_bank ≤ 1 → (pc9801rs_bank_w s offset data).m_vram_bank ≤ 1) := by
  have key := ipl_setting data hd
  refine ⟨fun h => ?_, fun h => ?_, fun h => ?_, fun h => ?_, ?_, ?_,
    rs_bank_w_other s offset data, fun hv => ?_⟩
  · rw [rs_bank_w_1, if_pos (key.2 h)]
  · rw [rs_bank_w_1, if_neg (fun k => h (key.1 k))]
  · rw [rs_bank_w_3, if_pos h]
  · rw [rs_bank_w_3, if_neg h]
  · rw [rs_bank_w_1]; split <;> rfl
  · rw [rs_bank_w_3]; split <;> rfl
  · by_cases h1 : offset = 1
    · subst h1
      rw [rs_bank_w_1]
      split <;> exact hv
    · by_cases h3 : offset = 3
      · subst h3
        rw [rs_bank_w_3]
        split
        · show data / 2 % 2 ≤ 1
          omega
        · exact hv
      · rw [rs_bank_w_other s offset data h1 h3]
        exact hv

/-- Witness for C23: data `0x12` at offset 1 selects IPL bank 1 and data `0x22`
at offset 3 selects VRAM bank 1. -/
theorem C23_rs_bank_w_witness :
    (pc9801rs_bank_w init_state 1 0x12).ipl_bank = 1
      ∧ (pc9801rs_bank_w init_state 3 0x22).m_vram_bank = 1 :=
  ⟨congrArg State.ipl_bank
      ((C23_rs_bank_w init_state 1 0x12 (by decide)).1 (Or.inr (Or.inr (Or.inr rfl)))),
    congrArg State.m_vram_bank
      ((C23_rs_bank_w init_state 3 0x22 (by decide)).2.2.1 (by decide))⟩

set_option maxRecDepth 100000 in
theorem and_fe_facts : ∀ v, v < 256 →
    ((v &&& 0xfe = v ↔ v % 2 = 0) ∧ (v &&& 0xfe) &&& 0xfe = v &&& 0xfe) := by
  decide

theorem reset_pc9821_window_bank (ide_region : Bool) (rom_load : Nat) (s : State) :
    (machine_reset_pc9821 ide_region rom_load s).m_pc9821_window_bank = 0x08 := rfl

/-- Claim C24: a byte `v` written to the window-bank register at offset 1 reads
back at offset 1 as `v AND 0xFE`, which equals `v` exactly when `v` is even;
writes at any other offset change nothing; writing back the value just read
leaves the state as it is; and after the PC-9821 reset the read returns
`0x08`. -/
theorem C24_window_bank (ide_region : Bool) (rom_load : Nat) (s0 s : State)
    (v offset data : Nat) (hv : v < 256) :
    window_bank_r (window_bank_w s 1 v) 1 = v &&& 0xFE
      ∧ (window_bank_r (window_bank_w s 1 v) 1 = v ↔ v % 2 = 0)
      ∧ (offset ≠ 1 → window_bank_w s offset data = s)
      ∧ window_bank_w (window_bank_w s 1 v) 1 (window_bank_r (window_bank_w s 1 v) 1)
          = window_bank_w s 1 v
      ∧ window_bank_r (machine_reset_pc9821 ide_region rom_load s0) 1 = 0x08 := by
  obtain ⟨k1, k2⟩ := and_fe_facts v hv
  have hr : window_bank_r (window_bank_w s 1 v) 1 = v &&& 0xFE := by
    simp [window_bank_r, window_bank_w, k2]
  refine ⟨hr, ?_, fun ho => ?_, ?_, ?_⟩
  · rw [hr]; exact k1
  · simp [window_bank_w, ho]
  · rw [hr]
    simp [window_bank_w, k2]
  · unfold window_bank_r
    rw [if_pos rfl, reset_pc9821_window_bank]
    decide

/-- Witness for C24: `0x0B` written at offset 1 reads back as `0x0A`. -/
theorem C24_window_bank_witness :
    window_bank_r (window_bank_w init_state 1 0x0B) 1 = 0x0A :=
  (C24_window_bank false 0 init_state init_state 0x0B 0 0 (by decide)).1.trans (by decide)

set_option maxRecDepth 100000 in
theorem mode1_page : ∀ page, page < 256 →
    ((page + 1) &&& 0xf) ||| (page &&& 0xf0) = page / 16 * 16 + (page % 16 + 1) % 16 := by
  decide

theorem dma_addr (s : State) (offset : Nat) :
    (s.m_dma_offset s.m_dack <<< 16) ||| offset
      = (s.m_dma_offset s.m_dack * 65536) ||| offset := by
  rw [Nat.shiftLeft_eq]

theorem dma_read_fst (P : Program) (s : State) (offset : Nat) :
    (dma_read_byte P s offset).1 =
      P.read_byte (dma_read_byte P s offset).2 ((s.m_dma_offset s.m_dack <<< 16) ||| offset) :=
  rfl

theorem dma_write_eq (P : Program) (s : State) (offset data : Nat) :
    dma_write_byte P s offset data =
      P.write_byte (dma_read_byte P s offset).2 ((s.m_dma_offset s.m_dack <<< 16) ||| offset)
        data :=
  rfl

theorem dma_read_snd (P : Program) (s : State) (offset : Nat) :
    (dma_read_byte P s offset).2 =
      if offset = 0xffff then
        (if s.m_dma_autoinc s.m_dack = 1 then
          { s with m_dma_offset :=
              (store s.m_dma_offset s.m_dack
                (((s.m_dma_offset s.m_dack % 256 + 1) &&& 0xf)
                  ||| (s.m_dma_offset s.m_dack % 256 &&& 0xf0))) }
        else if s.m_dma_autoinc s.m_dack = 3 then
          { s with m_dma_offset :=
              (store s.m_dma_offset s.m_dack ((s.m_dma_offset s.m_dack + 1) % 256)) }
        else s)
      else s := by
  unfold dma_read_byte
  simp only []
  by_cases ho : offset = 0xffff
  · simp only [ho, if_true]
    split
    · next h => rw [if_pos h]
    · next h => rw [if_neg (by rw [h]; decide), if_pos h]
    · next h1 h3 => rw [if_neg h1, if_neg h3]
  · simp only [ho, if_false]

/-- Claim C25: for the acknowledged channel `c`, `dma_read_byte` and
`dma_write_byte` access address `(page[c] * 65536) OR offset` with the page held
before the call; the state changes only for offset `0xFFFF` and then only in
`page[c]`: mode 1 increments its low nibble modulo 16 and keeps the high
nibble, mode 3 increments the whole byte modulo 256, modes 0 and 2 change
nothing; the write path hands the program space the state the read path
leaves. -/
theorem C25_dma_autoinc (P : Program) (s : State) (offset data : Nat)
    (hoff : offset < 65536) (hp : s.m_dma_offset s.m_dack < 256) :
    (dma_read_byte P s offset).1 =
        P.read_byte (dma_read_byte P s offset).2 ((s.m_dma_offset s.m_dack * 65536) ||| offset)
      ∧ dma_write_byte P s offset data =
          P.write_byte (dma_read_byte P s offset).2
            ((s.m_dma_offset s.m_dack * 65536) ||| offset) data
      ∧ (offset ≠ 0xFFFF → (dma_read_byte P s offset).2 = s)
      ∧ (dma_read_byte P s offset).2 =
          { s with m_dma_offset := (dma_read_byte P s offset).2.m_dma_offset }
      ∧ (∀ k, k ≠ s.m_dack →
          (dma_read_byte P s offset).2.m_dma_offset k = s.m_dma_offset k)
      ∧ (s.m_dma_autoinc s.m_dack = 1 →
          (dma_read_byte P s 0xFFFF).2.m_dma_offset s.m_dack
            = s.m_dma_offset s.m_dack / 16 * 16 + (s.m_dma_offset s.m_dack % 16 + 1) % 16)
      ∧ (s.m_dma_autoinc s.m_dack = 3 →
          (dma_read_byte P s 0xFFFF).2.m_dma_offset s.m_dack
            = (s.m_dma_offset s.m_dack + 1) % 256)
      ∧ (s.m_dma_autoinc s.m_dack = 0 ∨ s.m_dma_autoinc s.m_dack = 2 →
          (dma_read_byte P s 0xFFFF).2 = s) := by
  have _ := hoff
  refine ⟨?_, ?_, fun ho => ?_, ?_, fun k hk => ?_, fun h1 => ?_, fun h3 => ?_, fun h02 => ?_⟩
  · rw [← dma_addr]; exact dma_read_fst P s offset
  · rw [← dma_addr]; exact dma_write_eq P s offset data
  · rw [dma_read_snd, if_neg ho]
  · rw [dma_read_snd]
    split
    · split
      · rfl
      · split <;> rfl
    · rfl
  · rw [dma_read_snd]
    split
    · split
      · simp [store, hk]
      · split
        · simp [store, hk]
        · rfl
    · rfl
  · rw [dma_read_snd, if_pos rfl, if_pos h1]
    simp only [store, if_true]
    rw [Nat.mod_eq_of_lt hp]
    exact mode1_page _ hp
  · rw [dma_read_snd, if_pos rfl, if_neg (by rw [h3]; decide), if_pos h3]
    simp [store]
  · rw [dma_read_snd, if_pos rfl]
    rcases h02 with h | h <;> rw [if_neg (by rw [h]; decide), if_neg (by rw [h]; decide)]

/-- Witness for C25: channel 2 with page `0x3F` in mode 1; a transfer at offset
`0xFFFF` wraps the low nibble and leaves page `0x30`. -/
theorem C25_dma_autoinc_witness :
    (dma_read_byte sample_program
        { init_state with
          m_dack := 2,
          m_dma_offset := fun k => if k = 2 then 0x3F else 0,
          m_dma_autoinc := fun k => if k = 2 then 1 else 0 } 0xFFFF).2.m_dma_offset 2 = 0x30 :=
  ((C25_dma_autoinc sample_program
      { init_state with
        m_dack := 2,
        m_dma_offset := fun k => if k = 2 then 0x3F else 0,
        m_dma_autoinc := fun k => if k = 2 then 1 else 0 } 0xFFFF 0 (by decide)
      (by decide)).2.2.2.2.2.1 (by decide)).trans (by decide)

theorem BIT_high (x k : Nat) : MS0515.BIT (x / 256) k = MS0515.BIT x (8 + k) := by
  rw [MS0515.BIT_eq_testBit, MS0515.BIT_eq_testBit]
  have e : x / 256 = x >>> 8 := by rw [Nat.shiftRight_eq_div_pow]
  rw [e, Nat.testBit_shiftRight]

theorem BIT_low (x k : Nat) (hk : k < 8) : MS0515.BIT (x % 256) k = MS0515.BIT x k := by
  rw [MS0515.BIT_eq_testBit, MS0515.BIT_eq_testBit]
  have e : x % 256 = x % 2 ^ 8 := by norm_num
  rw [e, Nat.testBit_mod_two_pow]
  simp [hk]

/-- The swap acts on the two bytes of the word separately. -/
theorem gvram_swap_bytes (x : Nat) :
    gvram_swap x = 256 * rev8 (x / 256) + rev8 (x % 256) := by
  simp only [gvram_swap, rev8, bitswap, List.foldl, BIT_high]
  rw [BIT_low x 0 (by decide), BIT_low x 1 (by decide), BIT_low x 2 (by decide),
    BIT_low x 3 (by decide), BIT_low x 4 (by decide), BIT_low x 5 (by decide),
    BIT_low x 6 (by decide), BIT_low x 7 (by decide)]
  ring

set_option maxRecDepth 100000 in
theorem rev8_facts : ∀ b, b < 256 →
    (rev8 b < 256 ∧ rev8 (rev8 b) = b
      ∧ ∀ i, i < 8 → (rev8 b).testBit i = b.testBit (7 - i)) := by
  decide

theorem rev8_zero : rev8 0 = 0 := by decide

theorem and_ff00 (z : Nat) (hz : z < 65536) : z &&& 0xFF00 = 256 * (z / 256) := by
  apply Nat.eq_of_testBit_eq
  intro i
  have e : (0xFF00 : Nat) = (2 ^ 8 - 1) <<< 8 := by decide
  have f : 256 * (z / 256) = (z >>> 8) <<< 8 := by
    rw [Nat.shiftRight_eq_div_pow, Nat.shiftLeft_eq, Nat.mul_comm]
  have big : ∀ j, 16 ≤ j → z.testBit j = false := fun j hj =>
    Nat.testBit_lt_two_pow (lt_of_lt_of_le hz (by
      have : 2 ^ 16 ≤ 2 ^ j := Nat.pow_le_pow_right (by norm_num) hj
      simpa using this))
  rw [Nat.testBit_and, e, f, Nat.testBit_shiftLeft, Nat.testBit_shiftLeft,
    Nat.testBit_two_pow_sub_one, Nat.testBit_shiftRight]
  by_cases hi : 8 ≤ i
  · have e2 : 8 + (i - 8) = i := by omega
    by_cases h8 : i - 8 < 8
    · simp [hi, h8, e2]
    · simp [hi, h8, e2, big i (by omega)]
  · simp [hi]

theorem gvram_swap_lt (x : Nat) (hx : x < 65536) : gvram_swap x < 65536 := by
  rw [gvram_swap_bytes]
  have h1 := (rev8_facts (x / 256) (by omega)).1
  have h2 := (rev8_facts (x % 256) (by omega)).1
  omega

theorem gvram_swap_div_mod (x : Nat) :
    gvram_swap x / 256 = rev8 (x / 256) ∧ gvram_swap x % 256 = rev8 (x % 256) := by
  rw [gvram_swap_bytes]
  have h2 := (rev8_facts (x % 256) (by omega)).1
  omega

theorem gvram_swap_involutive (x : Nat) (hx : x < 65536) : gvram_swap (gvram_swap x) = x := by
  obtain ⟨hd, hm⟩ := gvram_swap_div_mod x
  rw [gvram_swap_bytes (gvram_swap x), hd, hm, (rev8_facts (x / 256) (by omega)).2.1,
    (rev8_facts (x % 256) (by omega)).2.1]
  omega

theorem gvram_swap_low_lane (x : Nat) :
    gvram_swap x &&& 0x00FF = gvram_swap (x &&& 0x00FF) := by
  have e : ∀ z : Nat, z &&& 0x00FF = z % 256 := fun z => Nat.and_pow_two_sub_one_eq_mod z 8
  rw [e, e, (gvram_swap_div_mod x).2, gvram_swap_bytes (x % 256)]
  have h1 : x % 256 / 256 = 0 := by omega
  have h2 : x % 256 % 256 = x % 256 := by omega
  rw [h1, h2, rev8_zero]
  omega

theorem gvram_swap_high_lane (x : Nat) (hx : x < 65536) :
    gvram_swap x &&& 0xFF00 = gvram_swap (x &&& 0xFF00) := by
  rw [and_ff00 _ (gvram_swap_lt x hx), and_ff00 x hx, (gvram_swap_div_mod x).1,
    gvram_swap_bytes (256 * (x / 256))]
  have h1 : 256 * (x / 256) / 256 = x / 256 := by omega
  have h2 : 256 * (x / 256) % 256 = 0 := by omega
  rw [h1, h2, rev8_zero, Nat.add_zero]

theorem and_ffff (z : Nat) (hz : z < 65536) : z &&& 0xFFFF = z := by
  have e : z &&& 0xFFFF = z % 65536 := Nat.and_pow_two_sub_one_eq_mod z 16
  rw [e, Nat.mod_eq_of_lt hz]

theorem gvram_swap_testBit_low (x i : Nat) (hi : i < 8) :
    (gvram_swap x).testBit i = x.testBit (7 - i) := by
  have hlt := (rev8_facts (x % 256) (by omega)).1
  have e : gvram_swap x = 2 ^ 8 * rev8 (x / 256) + rev8 (x % 256) := by
    rw [gvram_swap_bytes]; norm_num
  rw [e, Nat.testBit_mul_pow_two_add _ (by simpa using hlt), if_pos hi,
    (rev8_facts (x % 256) (by omega)).2.2 i hi]
  have f : x % 256 = x % 2 ^ 8 := by norm_num
  rw [f, Nat.testBit_mod_two_pow]
  have : 7 - i < 8 := by omega
  simp [this]

theorem gvram_swap_testBit_high (x i : Nat) (hx : x < 65536) (h8 : 8 ≤ i) (hi : i < 16) :
    (gvram_swap x).testBit i = x.testBit (23 - i) := by
  have hlt := (rev8_facts (x % 256) (by omega)).1
  have e : gvram_swap x = 2 ^ 8 * rev8 (x / 256) + rev8 (x % 256) := by
    rw [gvram_swap_bytes]; norm_num
  rw [e, Nat.testBit_mul_pow_two_add _ (by simpa using hlt), if_neg (by omega),
    (rev8_facts (x / 256) (by omega)).2.2 (i - 8) (by omega)]
  have f : x / 256 = x >>> 8 := by rw [Nat.shiftRight_eq_div_pow]
  rw [f, Nat.testBit_shiftRight]
  congr 1
  omega

/-- Claim C26: the permutation the four graphic VRAM handlers apply reverses
the bit order inside each byte without exchanging the bytes; on 16-bit words
it is an involution and it commutes with the byte-lane masks `0x00FF`,
`0xFF00` and `0xFFFF`; the write handlers pass the permuted data and the read
handlers the permuted result, with `mem_mask` unchanged. -/
theorem C26_gvram_swap (G : Grcg) (s : State) (x offset mem_mask : Nat) (hx : x < 65536) :
    gvram_swap (gvram_swap x) = x
      ∧ gvram_swap x &&& 0x00FF = gvram_swap (x &&& 0x00FF)
      ∧ gvram_swap x &&& 0xFF00 = gvram_swap (x &&& 0xFF00)
      ∧ gvram_swap x &&& 0xFFFF = gvram_swap (x &&& 0xFFFF)
      ∧ (∀ i, i < 8 → (gvram_swap x).testBit i = x.testBit (7 - i))
      ∧ (∀ i, 8 ≤ i → i < 16 → (gvram_swap x).testBit i = x.testBit (23 - i))
      ∧ gvram_swap x < 65536
      ∧ grcg_gvram_w G s offset x mem_mask =
          G.upd7220_grcg_w s ((offset + 0x4000) ||| (s.m_vram_bank <<< 16)) (gvram_swap x)
            mem_mask
      ∧ grcg_gvram0_w G s offset x mem_mask =
          G.upd7220_grcg_w s (offset ||| (s.m_vram_bank <<< 16)) (gvram_swap x) mem_mask
      ∧ grcg_gvram_r G s offset mem_mask =
          gvram_swap
            (G.upd7220_grcg_r s ((offset + 0x4000) ||| (s.m_vram_bank <<< 16)) mem_mask % 65536)
      ∧ grcg_gvram0_r G s offset mem_mask =
          gvram_swap (G.upd7220_grcg_r s (offset ||| (s.m_vram_bank <<< 16)) mem_mask % 65536) := by
  refine ⟨gvram_swap_involutive x hx, gvram_swap_low_lane x, gvram_swap_high_lane x hx, ?_,
    fun i hi => gvram_swap_testBit_low x i hi,
    fun i h8 hi => gvram_swap_testBit_high x i hx h8 hi, gvram_swap_lt x hx, rfl, rfl, rfl, rfl⟩
  rw [and_ffff _ (gvram_swap_lt x hx), and_ffff x hx]

/-- Witness for C26: `0x8001` becomes `0x0180` and comes back. -/
theorem C26_gvram_swap_witness :
    gvram_swap 0x8001 = 0x0180 ∧ gvram_swap (gvram_swap 0x8001) = 0x8001 :=
  ⟨by decide, (C26_gvram_swap sample_grcg init_state 0x8001 0 0xffff (by decide)).1⟩

end PC9801

namespace Zexall

end Zexall

namespace IoMap

set_option maxRecDepth 1000000 in
theorem agrees_low : ∀ p, p < 0x96 → agrees_at p = true := by
  decide

theorem agrees_mouse (p : Nat) (h1 : 0x7fd8 ≤ p) (h2 : p ≤ 0x7fdf) : agrees_at p = true := by
  interval_cases p <;> decide

theorem common_unbound (p : Nat) (h1 : 0x96 ≤ p) (h2 : p < 0x7fd8 ∨ 0x7fdf < p) :
    bound 2 pc9801_common_io p = [] := by
  have hf : pc9801_common_io.filter (fun e => covers 2 e p) = [] := by
    rw [List.filter_eq_nil_iff]
    intro e he
    simp only [pc9801_common_io, List.mem_cons, List.mem_singleton, List.not_mem_nil,
      or_false] at he
    rcases he with h | h | h | h | h | h | h | h | h | h | h | h | h | h | h | h | h | h | h | h <;>
      subst h <;> simp only [covers, Bool.and_eq_true, decide_eq_true_eq, not_and] <;> omega
  simp [bound, hf]

theorem agrees_everywhere (p : Nat) : agrees_at p = true := by
  by_cases h : p < 0x96
  · exact agrees_low p h
  · by_cases hm : 0x7fd8 ≤ p ∧ p ≤ 0x7fdf
    · exact agrees_mouse p hm.1 hm.2
    · have : bound 2 pc9801_common_io p = [] := common_unbound p (by omega) (by omega)
      simp [agrees_at, this]

/-- Counterexample to C16 as stated: at port `0x70` the shared table binds the
text-scroll read handler, and the PC-9821 table does not. -/
theorem C16_txt_scrl_counterexample :
    ¬ (∀ p h, h ∈ bound 2 pc9801_common_io p → h ∈ bound 4 pc9821_io p) :=
  fun H => absurd (H 0x70 Handler.txt_scrl_r (by decide)) (by decide)

/-- Claim C16, amended: for every port and lane that `pc9801_common_io` binds to
a handler, `pc9821_io` binds the same port and lane to the same handler,
except for the dropped bindings (text scroll, SASI, floppy PPI, serial port,
direct FDC status and FIFO, `rtc_w` at ports 2 modulo 4, `nmi_ctrl_w` from
`0x54` on), which it does not bind there. -/
theorem C16_pc9821_restates_common (p : Nat) (h : Handler)
    (hb : h ∈ bound 2 pc9801_common_io p) :
    (h ∈ bound 4 pc9821_io p ↔ dropped h p = false) := by
  have ha := agrees_everywhere p
  simp only [agrees_at, List.all_eq_true, beq_iff_eq] at ha
  have := ha h hb
  cases hd : dropped h p
  · rw [hd] at this
    simpa using this
  · rw [hd] at this
    simpa using this

/-- Witness for the amended C16: the interrupt-controller read at port 0 is
carried over. -/
theorem C16_pc9821_restates_common_witness :
    Handler.pic_r ∈ bound 4 pc9821_io 0x00 :=
  (C16_pc9821_restates_common 0x00 Handler.pic_r (by decide)).2 (by decide)

end IoMap
